import Mathlib

/-!
Verification of the wanikani-api client library.

This file gives a shallow embedding, in Lean, of the parts of the
`wanikani-api` Rust crate that the specification talks about:

* a JSON value model and, over it, the serde-derived encoders and decoders
  of the resource data model (`Resource`, `Collection`, the subject types
  with their untagged-union decoding, study materials, user preferences,
  assignments, and the other payload types);
* the collection filters (`IdFilter`, `SubjectFilter`, `StudyMaterialFilter`,
  `AssignmentFilter`) and their `apply_filters` query-pair serializers;
* the request executor pieces of `WKClient`: `rate_limit_reset`,
  `handle_error`, `do_request`, and the `Debug` formatter.

Integers from the Rust side are modelled as `Nat` / `Int` (`u64`, `u32` as
`Nat`; `i64`, `i32` as `Int`).  Timestamps (`chrono::DateTime<Utc>`) are
modelled as their epoch-millisecond value, an `Int`; URLs, UUIDs and MIME
types are modelled as their string rendering.  A Rust panic is modelled as
`Option.none` in the return type of the function that can panic.
-/

namespace Wanikani

/-! ## JSON value model

JSON numbers are modelled as `Int`: every number the crate serializes or
deserializes is an integer (ids, counts, levels, error codes), and
timestamps are modelled by their integer epoch-millisecond value.
Objects are ordered association lists, as produced by a serializer.
-/

inductive Json where
  | null
  | bool (b : Bool)
  | num (n : Int)
  | str (s : String)
  | arr (elems : List Json)
  | obj (fields : List (String × Json))

/-- Look up the first value bound to key `k` in an association list of
object fields. -/
def jlookup : List (String × Json) → String → Option Json
  | [], _ => none
  | (k₁, v) :: rest, k => if k₁ = k then some v else jlookup rest k

/-- Decode a JSON string (serde `String`, and our model of `Url`, `Uuid`
and `Mime`, which serialize as strings). -/
def Json.getStr : Json → Option String
  | .str s => some s
  | _ => none

/-- Decode an unsigned integer (serde `u64` / `u32`): a negative JSON
number is a type error. -/
def Json.getNat : Json → Option Nat
  | .num (.ofNat n) => some n
  | _ => none

/-- Decode a signed integer (serde `i32` / `i64`). -/
def Json.getInt : Json → Option Int
  | .num n => some n
  | _ => none

/-- Decode a boolean. -/
def Json.getBool : Json → Option Bool
  | .bool b => some b
  | _ => none

/-- Decode every element of a JSON array in order; fail if any element
fails (serde sequence semantics). -/
def decodeList (dec : Json → Option α) : List Json → Option (List α)
  | [] => some []
  | j :: js =>
    match dec j, decodeList dec js with
    | some x, some xs => some (x :: xs)
    | _, _ => none

/-- Decode an array with the given element decoder (serde `Vec<T>`). -/
def Json.getArr (dec : Json → Option α) : Json → Option (List α)
  | .arr es => decodeList dec es
  | _ => none

/-- Decode a required struct field: missing key or a failing element
decoder is a decode error (serde derive for a non-`Option` field). -/
def getField (j : Json) (k : String) (dec : Json → Option α) : Option α :=
  match j with
  | .obj fs => (jlookup fs k).bind dec
  | _ => none

/-- Decode the value of an `Option<T>` field that is present: an
explicit `null` is `None`, anything else goes through the element
decoder. -/
def decOptValue (dec : Json → Option α) : Json → Option (Option α)
  | .null => some none
  | v => (dec v).map some

/-- Decode an `Option<T>` struct field: serde derive maps a missing key
and an explicit `null` both to `None`, and any other value through the
element decoder. -/
def getOptField (j : Json) (k : String) (dec : Json → Option α) : Option (Option α) :=
  match j with
  | .obj fs =>
    match jlookup fs k with
    | none => some none
    | some v => decOptValue dec v
  | _ => none

/-- Encode an `Option<T>` field without `skip_serializing_if`: `None`
serializes as an explicit `null` (serde derive default). -/
def encOpt (enc : α → Json) : Option α → Json
  | none => Json.null
  | some v => enc v

/-- Fields contributed by an `Option<T>` field marked
`#[serde(skip_serializing_if = "Option::is_none")]`: absent when unset. -/
def skipNoneField (k : String) (enc : α → Json) : Option α → List (String × Json)
  | none => []
  | some v => [(k, enc v)]

end Wanikani

namespace Wanikani

/-! ## Timestamps and primitive encoders

`chrono::DateTime<Utc>` round-trips through serde; it is modelled as the
epoch-millisecond value, encoded as a JSON number. -/

/-- Model of `Timestamp = chrono::DateTime<Utc>`: epoch milliseconds. -/
abbrev Timestamp := Int

/-- Encode a timestamp. -/
def encTs (t : Timestamp) : Json := .num t

/-- Encode a `u64` / `u32` value. -/
def encNat (n : Nat) : Json := .num (.ofNat n)

/-! ## Subject data model (`src/subject.rs`)

The structures below mirror the Rust declarations field for field, in
declaration order.  `#[serde(flatten)]` fields contribute their own
fields inline at their position (`encFields`), and are decoded from the
same object.  Unknown fields are ignored on decode, as serde derive
does by default. -/

/-- An auxiliary meaning type (`MeaningType`, serde `snake_case`). -/
inductive MeaningType where
  | whitelist
  | blacklist

def MeaningType.encode : MeaningType → Json
  | .whitelist => .str "whitelist"
  | .blacklist => .str "blacklist"

def MeaningType.decode : Json → Option MeaningType
  | .str "whitelist" => some .whitelist
  | .str "blacklist" => some .blacklist
  | _ => none

/-- The classification of a kanji reading (`KanjiReadingType`). -/
inductive KanjiReadingType where
  | kunyomi
  | nanori
  | onyomi

def KanjiReadingType.encode : KanjiReadingType → Json
  | .kunyomi => .str "kunyomi"
  | .nanori => .str "nanori"
  | .onyomi => .str "onyomi"

def KanjiReadingType.decode : Json → Option KanjiReadingType
  | .str "kunyomi" => some .kunyomi
  | .str "nanori" => some .nanori
  | .str "onyomi" => some .onyomi
  | _ => none

/-- The gender of a voice actor (`Gender` in `cross_feature`). -/
inductive Gender where
  | male
  | female

def Gender.encode : Gender → Json
  | .male => .str "male"
  | .female => .str "female"

def Gender.decode : Json → Option Gender
  | .str "male" => some .male
  | .str "female" => some .female
  | _ => none

/-- A subject type (`SubjectType` in `cross_feature`, serde `snake_case`). -/
inductive SubjectType where
  | radical
  | kanji
  | vocabulary
  | kanaVocabulary

def SubjectType.encode : SubjectType → Json
  | .radical => .str "radical"
  | .kanji => .str "kanji"
  | .vocabulary => .str "vocabulary"
  | .kanaVocabulary => .str "kana_vocabulary"

def SubjectType.decode : Json → Option SubjectType
  | .str "radical" => some .radical
  | .str "kanji" => some .kanji
  | .str "vocabulary" => some .vocabulary
  | .str "kana_vocabulary" => some .kanaVocabulary
  | _ => none

/-- The `Display` impl of `SubjectType`: the same snake-case names. -/
def SubjectType.toDisplay : SubjectType → String
  | .kanaVocabulary => "kana_vocabulary"
  | .kanji => "kanji"
  | .radical => "radical"
  | .vocabulary => "vocabulary"

/-- A meaning for a subject (`Meaning`). -/
structure Meaning where
  meaning : String
  primary : Bool
  accepted_answer : Bool

def Meaning.encode (m : Meaning) : Json :=
  .obj [("meaning", .str m.meaning), ("primary", .bool m.primary),
        ("accepted_answer", .bool m.accepted_answer)]

def Meaning.decode (j : Json) : Option Meaning := do
  let meaning ← getField j "meaning" Json.getStr
  let primary ← getField j "primary" Json.getBool
  let accepted_answer ← getField j "accepted_answer" Json.getBool
  pure ⟨meaning, primary, accepted_answer⟩

/-- A secondary meaning for a subject (`AuxilliaryMeaning`); its
`meaning_type` field is renamed to `type` on the wire. -/
structure AuxilliaryMeaning where
  meaning : String
  meaning_type : MeaningType

def AuxilliaryMeaning.encode (m : AuxilliaryMeaning) : Json :=
  .obj [("meaning", .str m.meaning), ("type", m.meaning_type.encode)]

def AuxilliaryMeaning.decode (j : Json) : Option AuxilliaryMeaning := do
  let meaning ← getField j "meaning" Json.getStr
  let meaning_type ← getField j "type" MeaningType.decode
  pure ⟨meaning, meaning_type⟩

/-- Details about a radical image (`ImageMetadata`, an untagged enum:
decoding tries `SVG` first, then `PNG`). -/
inductive ImageMetadata where
  | svg (inline_styles : Bool)
  | png (color : String) (dimensions : String) (style_name : String)

def ImageMetadata.encode : ImageMetadata → Json
  | .svg inline_styles => .obj [("inline_styles", .bool inline_styles)]
  | .png color dimensions style_name =>
    .obj [("color", .str color), ("dimensions", .str dimensions),
          ("style_name", .str style_name)]

def ImageMetadata.decodeSvg (j : Json) : Option ImageMetadata := do
  let inline_styles ← getField j "inline_styles" Json.getBool
  pure (.svg inline_styles)

def ImageMetadata.decodePng (j : Json) : Option ImageMetadata := do
  let color ← getField j "color" Json.getStr
  let dimensions ← getField j "dimensions" Json.getStr
  let style_name ← getField j "style_name" Json.getStr
  pure (.png color dimensions style_name)

def ImageMetadata.decode (j : Json) : Option ImageMetadata :=
  ImageMetadata.decodeSvg j <|> ImageMetadata.decodePng j

/-- An image representing a radical (`CharacterImage`); the MIME
`content_type` is modelled as its string rendering. -/
structure CharacterImage where
  url : String
  content_type : String
  metadata : ImageMetadata

def CharacterImage.encode (c : CharacterImage) : Json :=
  .obj [("url", .str c.url), ("content_type", .str c.content_type),
        ("metadata", c.metadata.encode)]

def CharacterImage.decode (j : Json) : Option CharacterImage := do
  let url ← getField j "url" Json.getStr
  let content_type ← getField j "content_type" Json.getStr
  let metadata ← getField j "metadata" ImageMetadata.decode
  pure ⟨url, content_type, metadata⟩

/-- A kanji reading (`KanjiReading`); `reading_type` is renamed to
`type` on the wire. -/
structure KanjiReading where
  reading : String
  primary : Bool
  accepted_answer : Bool
  reading_type : KanjiReadingType

def KanjiReading.encode (r : KanjiReading) : Json :=
  .obj [("reading", .str r.reading), ("primary", .bool r.primary),
        ("accepted_answer", .bool r.accepted_answer),
        ("type", r.reading_type.encode)]

def KanjiReading.decode (j : Json) : Option KanjiReading := do
  let reading ← getField j "reading" Json.getStr
  let primary ← getField j "primary" Json.getBool
  let accepted_answer ← getField j "accepted_answer" Json.getBool
  let reading_type ← getField j "type" KanjiReadingType.decode
  pure ⟨reading, primary, accepted_answer, reading_type⟩

/-- A context sentence (`ContextSentence`). -/
structure ContextSentence where
  en : String
  ja : String

def ContextSentence.encode (c : ContextSentence) : Json :=
  .obj [("en", .str c.en), ("ja", .str c.ja)]

def ContextSentence.decode (j : Json) : Option ContextSentence := do
  let en ← getField j "en" Json.getStr
  let ja ← getField j "ja" Json.getStr
  pure ⟨en, ja⟩

/-- Details on a pronunciation audio clip (`AudioMetadata`). -/
structure AudioMetadata where
  gender : Gender
  source_id : Nat
  pronunciation : String
  voice_actor_id : Nat
  voice_actor_name : String
  voice_description : String

def AudioMetadata.encode (m : AudioMetadata) : Json :=
  .obj [("gender", m.gender.encode), ("source_id", encNat m.source_id),
        ("pronunciation", .str m.pronunciation),
        ("voice_actor_id", encNat m.voice_actor_id),
        ("voice_actor_name", .str m.voice_actor_name),
        ("voice_description", .str m.voice_description)]

def AudioMetadata.decode (j : Json) : Option AudioMetadata := do
  let gender ← getField j "gender" Gender.decode
  let source_id ← getField j "source_id" Json.getNat
  let pronunciation ← getField j "pronunciation" Json.getStr
  let voice_actor_id ← getField j "voice_actor_id" Json.getNat
  let voice_actor_name ← getField j "voice_actor_name" Json.getStr
  let voice_description ← getField j "voice_description" Json.getStr
  pure ⟨gender, source_id, pronunciation, voice_actor_id, voice_actor_name,
        voice_description⟩

/-- Pronunciation audio for a vocabulary word (`PronunciationAudio`). -/
structure PronunciationAudio where
  url : String
  content_type : String
  metadata : AudioMetadata

def PronunciationAudio.encode (p : PronunciationAudio) : Json :=
  .obj [("url", .str p.url), ("content_type", .str p.content_type),
        ("metadata", p.metadata.encode)]

def PronunciationAudio.decode (j : Json) : Option PronunciationAudio := do
  let url ← getField j "url" Json.getStr
  let content_type ← getField j "content_type" Json.getStr
  let metadata ← getField j "metadata" AudioMetadata.decode
  pure ⟨url, content_type, metadata⟩

/-- A vocabulary reading (`VocabularyReading`). -/
structure VocabularyReading where
  accepted_answer : Bool
  primary : Bool
  reading : String

def VocabularyReading.encode (r : VocabularyReading) : Json :=
  .obj [("accepted_answer", .bool r.accepted_answer),
        ("primary", .bool r.primary), ("reading", .str r.reading)]

def VocabularyReading.decode (j : Json) : Option VocabularyReading := do
  let accepted_answer ← getField j "accepted_answer" Json.getBool
  let primary ← getField j "primary" Json.getBool
  let reading ← getField j "reading" Json.getStr
  pure ⟨accepted_answer, primary, reading⟩

/-- Attributes common to all subject types (`SubjectCommon`), flattened
into each concrete subject. -/
structure SubjectCommon where
  auxiliary_meanings : List AuxilliaryMeaning
  created_at : Timestamp
  document_url : String
  hidden_at : Option Timestamp
  lesson_position : Nat
  level : Nat
  meaning_mnemonic : String
  meanings : List Meaning
  slug : String
  spaced_repetition_system_id : Nat

/-- The fields `SubjectCommon` contributes when flattened. -/
def SubjectCommon.encFields (c : SubjectCommon) : List (String × Json) :=
  [("auxiliary_meanings", .arr (c.auxiliary_meanings.map AuxilliaryMeaning.encode)),
   ("created_at", encTs c.created_at),
   ("document_url", .str c.document_url),
   ("hidden_at", encOpt encTs c.hidden_at),
   ("lesson_position", encNat c.lesson_position),
   ("level", encNat c.level),
   ("meaning_mnemonic", .str c.meaning_mnemonic),
   ("meanings", .arr (c.meanings.map Meaning.encode)),
   ("slug", .str c.slug),
   ("spaced_repetition_system_id", encNat c.spaced_repetition_system_id)]

/-- Decode the flattened `SubjectCommon` fields from the whole object. -/
def SubjectCommon.decode (j : Json) : Option SubjectCommon := do
  let auxiliary_meanings ← getField j "auxiliary_meanings" (Json.getArr AuxilliaryMeaning.decode)
  let created_at ← getField j "created_at" Json.getInt
  let document_url ← getField j "document_url" Json.getStr
  let hidden_at ← getOptField j "hidden_at" Json.getInt
  let lesson_position ← getField j "lesson_position" Json.getNat
  let level ← getField j "level" Json.getNat
  let meaning_mnemonic ← getField j "meaning_mnemonic" Json.getStr
  let meanings ← getField j "meanings" (Json.getArr Meaning.decode)
  let slug ← getField j "slug" Json.getStr
  let spaced_repetition_system_id ← getField j "spaced_repetition_system_id" Json.getNat
  pure ⟨auxiliary_meanings, created_at, document_url, hidden_at, lesson_position,
        level, meaning_mnemonic, meanings, slug, spaced_repetition_system_id⟩

/-- A radical (`Radical`): `characters` is optional on the wire. -/
structure Radical where
  common : SubjectCommon
  amalgamation_subject_ids : List Nat
  characters : Option String
  character_images : List CharacterImage

def Radical.encode (r : Radical) : Json :=
  .obj (r.common.encFields ++
    [("amalgamation_subject_ids", .arr (r.amalgamation_subject_ids.map encNat)),
     ("characters", encOpt Json.str r.characters),
     ("character_images", .arr (r.character_images.map CharacterImage.encode))])

def Radical.decode (j : Json) : Option Radical := do
  let common ← SubjectCommon.decode j
  let amalgamation_subject_ids ← getField j "amalgamation_subject_ids" (Json.getArr Json.getNat)
  let characters ← getOptField j "characters" Json.getStr
  let character_images ← getField j "character_images" (Json.getArr CharacterImage.decode)
  pure ⟨common, amalgamation_subject_ids, characters, character_images⟩

/-- A kanji subject (`Kanji`). -/
structure Kanji where
  common : SubjectCommon
  amalgamation_subject_ids : List Nat
  characters : String
  component_subject_ids : List Nat
  meaning_hint : Option String
  reading_hint : Option String
  reading_mnemonic : String
  readings : List KanjiReading
  visually_similar_subject_ids : List Nat

def Kanji.encode (k : Kanji) : Json :=
  .obj (k.common.encFields ++
    [("amalgamation_subject_ids", .arr (k.amalgamation_subject_ids.map encNat)),
     ("characters", .str k.characters),
     ("component_subject_ids", .arr (k.component_subject_ids.map encNat)),
     ("meaning_hint", encOpt Json.str k.meaning_hint),
     ("reading_hint", encOpt Json.str k.reading_hint),
     ("reading_mnemonic", .str k.reading_mnemonic),
     ("readings", .arr (k.readings.map KanjiReading.encode)),
     ("visually_similar_subject_ids", .arr (k.visually_similar_subject_ids.map encNat))])

def Kanji.decode (j : Json) : Option Kanji := do
  let common ← SubjectCommon.decode j
  let amalgamation_subject_ids ← getField j "amalgamation_subject_ids" (Json.getArr Json.getNat)
  let characters ← getField j "characters" Json.getStr
  let component_subject_ids ← getField j "component_subject_ids" (Json.getArr Json.getNat)
  let meaning_hint ← getOptField j "meaning_hint" Json.getStr
  let reading_hint ← getOptField j "reading_hint" Json.getStr
  let reading_mnemonic ← getField j "reading_mnemonic" Json.getStr
  let readings ← getField j "readings" (Json.getArr KanjiReading.decode)
  let visually_similar_subject_ids ← getField j "visually_similar_subject_ids" (Json.getArr Json.getNat)
  pure ⟨common, amalgamation_subject_ids, characters, component_subject_ids,
        meaning_hint, reading_hint, reading_mnemonic, readings,
        visually_similar_subject_ids⟩

/-- A kanji-based vocabulary word (`Vocabulary`). -/
structure Vocabulary where
  common : SubjectCommon
  characters : String
  component_subject_ids : List Nat
  context_sentences : List ContextSentence
  parts_of_speech : List String
  pronunciation_audios : List PronunciationAudio
  readings : List VocabularyReading
  reading_mnemonic : String

def Vocabulary.encode (v : Vocabulary) : Json :=
  .obj (v.common.encFields ++
    [("characters", .str v.characters),
     ("component_subject_ids", .arr (v.component_subject_ids.map encNat)),
     ("context_sentences", .arr (v.context_sentences.map ContextSentence.encode)),
     ("parts_of_speech", .arr (v.parts_of_speech.map Json.str)),
     ("pronunciation_audios", .arr (v.pronunciation_audios.map PronunciationAudio.encode)),
     ("readings", .arr (v.readings.map VocabularyReading.encode)),
     ("reading_mnemonic", .str v.reading_mnemonic)])

def Vocabulary.decode (j : Json) : Option Vocabulary := do
  let common ← SubjectCommon.decode j
  let characters ← getField j "characters" Json.getStr
  let component_subject_ids ← getField j "component_subject_ids" (Json.getArr Json.getNat)
  let context_sentences ← getField j "context_sentences" (Json.getArr ContextSentence.decode)
  let parts_of_speech ← getField j "parts_of_speech" (Json.getArr Json.getStr)
  let pronunciation_audios ← getField j "pronunciation_audios" (Json.getArr PronunciationAudio.decode)
  let readings ← getField j "readings" (Json.getArr VocabularyReading.decode)
  let reading_mnemonic ← getField j "reading_mnemonic" Json.getStr
  pure ⟨common, characters, component_subject_ids, context_sentences,
        parts_of_speech, pronunciation_audios, readings, reading_mnemonic⟩

/-- A kana-only vocabulary word (`KanaVocabulary`). -/
structure KanaVocabulary where
  common : SubjectCommon
  characters : String
  context_sentences : List ContextSentence
  parts_of_speech : List String
  pronunciation_audios : List PronunciationAudio

def KanaVocabulary.encode (v : KanaVocabulary) : Json :=
  .obj (v.common.encFields ++
    [("characters", .str v.characters),
     ("context_sentences", .arr (v.context_sentences.map ContextSentence.encode)),
     ("parts_of_speech", .arr (v.parts_of_speech.map Json.str)),
     ("pronunciation_audios", .arr (v.pronunciation_audios.map PronunciationAudio.encode))])

def KanaVocabulary.decode (j : Json) : Option KanaVocabulary := do
  let common ← SubjectCommon.decode j
  let characters ← getField j "characters" Json.getStr
  let context_sentences ← getField j "context_sentences" (Json.getArr ContextSentence.decode)
  let parts_of_speech ← getField j "parts_of_speech" (Json.getArr Json.getStr)
  let pronunciation_audios ← getField j "pronunciation_audios" (Json.getArr PronunciationAudio.decode)
  pure ⟨common, characters, context_sentences, parts_of_speech, pronunciation_audios⟩

/-- The untagged subject union (`Subject`).  The wire format carries no
discriminant; serde tries the variants in declaration order: `Radical`,
`Kanji`, `Vocabulary`, `KanaVocabulary`, and the first success wins. -/
inductive Subject where
  | radical (r : Radical)
  | kanji (k : Kanji)
  | vocabulary (v : Vocabulary)
  | kanaVocabulary (v : KanaVocabulary)

/-- Untagged serialization: the active variant serializes directly. -/
def Subject.encode : Subject → Json
  | .radical r => r.encode
  | .kanji k => k.encode
  | .vocabulary v => v.encode
  | .kanaVocabulary v => v.encode

/-- Untagged deserialization: first variant that decodes wins. -/
def Subject.decode (j : Json) : Option Subject :=
  (Radical.decode j).map Subject.radical <|>
  (Kanji.decode j).map Subject.kanji <|>
  (Vocabulary.decode j).map Subject.vocabulary <|>
  (KanaVocabulary.decode j).map Subject.kanaVocabulary

end Wanikani

namespace Wanikani

/-! ## Resource envelope (`src/lib.rs`) -/

/-- Possible resource types (`ResourceType`, serde `snake_case`). -/
inductive ResourceType where
  | collection
  | levelProgression
  | reset
  | reviewStatistic
  | studyMaterial
  | radical
  | kanji
  | vocabulary
  | kanaVocabulary
  | report
  | user
  | voiceActor

def ResourceType.encode : ResourceType → Json
  | .collection => .str "collection"
  | .levelProgression => .str "level_progression"
  | .reset => .str "reset"
  | .reviewStatistic => .str "review_statistic"
  | .studyMaterial => .str "study_material"
  | .radical => .str "radical"
  | .kanji => .str "kanji"
  | .vocabulary => .str "vocabulary"
  | .kanaVocabulary => .str "kana_vocabulary"
  | .report => .str "report"
  | .user => .str "user"
  | .voiceActor => .str "voice_actor"

def ResourceType.decode : Json → Option ResourceType
  | .str "collection" => some .collection
  | .str "level_progression" => some .levelProgression
  | .str "reset" => some .reset
  | .str "review_statistic" => some .reviewStatistic
  | .str "study_material" => some .studyMaterial
  | .str "radical" => some .radical
  | .str "kanji" => some .kanji
  | .str "vocabulary" => some .vocabulary
  | .str "kana_vocabulary" => some .kanaVocabulary
  | .str "report" => some .report
  | .str "user" => some .user
  | .str "voice_actor" => some .voiceActor
  | _ => none

/-- Fields common to all resources (`ResourceCommon`), flattened into
`Resource`, `Collection`, `User`, `Summary` and `VoiceActor`. -/
structure ResourceCommon where
  object : ResourceType
  url : String
  data_updated_at : Option Timestamp

def ResourceCommon.encFields (c : ResourceCommon) : List (String × Json) :=
  [("object", c.object.encode), ("url", .str c.url),
   ("data_updated_at", encOpt encTs c.data_updated_at)]

def ResourceCommon.decode (j : Json) : Option ResourceCommon := do
  let object ← getField j "object" ResourceType.decode
  let url ← getField j "url" Json.getStr
  let data_updated_at ← getOptField j "data_updated_at" Json.getInt
  pure ⟨object, url, data_updated_at⟩

/-- Pagination data for collections (`Pages`). -/
structure Pages where
  next_url : Option String
  previous_url : Option String
  per_page : Nat

def Pages.encode (p : Pages) : Json :=
  .obj [("next_url", encOpt Json.str p.next_url),
        ("previous_url", encOpt Json.str p.previous_url),
        ("per_page", encNat p.per_page)]

def Pages.decode (j : Json) : Option Pages := do
  let next_url ← getOptField j "next_url" Json.getStr
  let previous_url ← getOptField j "previous_url" Json.getStr
  let per_page ← getField j "per_page" Json.getNat
  pure ⟨next_url, previous_url, per_page⟩

/-- A generic resource (`Resource<T>`): `id`, the flattened
`ResourceCommon` fields, and `data`. -/
structure Resource (α : Type) where
  id : Nat
  common : ResourceCommon
  data : α

def Resource.encode (enc : α → Json) (r : Resource α) : Json :=
  .obj ([("id", encNat r.id)] ++ r.common.encFields ++ [("data", enc r.data)])

def Resource.decode (dec : Json → Option α) (j : Json) : Option (Resource α) := do
  let id ← getField j "id" Json.getNat
  let common ← ResourceCommon.decode j
  let data ← getField j "data" dec
  pure ⟨id, common, data⟩

/-- A collection of resources (`Collection<T>`). -/
structure Collection (α : Type) where
  common : ResourceCommon
  pages : Pages
  total_count : Nat
  data : List (Resource α)

def Collection.encode (enc : α → Json) (c : Collection α) : Json :=
  .obj (c.common.encFields ++
    [("pages", c.pages.encode), ("total_count", encNat c.total_count),
     ("data", .arr (c.data.map (Resource.encode enc)))])

def Collection.decode (dec : Json → Option α) (j : Json) : Option (Collection α) := do
  let common ← ResourceCommon.decode j
  let pages ← getField j "pages" Pages.decode
  let total_count ← getField j "total_count" Json.getNat
  let data ← getField j "data" (Json.getArr (Resource.decode dec))
  pure ⟨common, pages, total_count, data⟩

/-- The WaniKani API error object (`WanikaniError`): the numeric error
code and the optional message, whose wire name is `error`. -/
structure WanikaniError where
  code : Int
  error : Option String

def WanikaniError.encode (e : WanikaniError) : Json :=
  .obj [("code", .num e.code), ("error", encOpt Json.str e.error)]

def WanikaniError.decode (j : Json) : Option WanikaniError := do
  let code ← getField j "code" Json.getInt
  let error ← getOptField j "error" Json.getStr
  pure ⟨code, error⟩

/-! ## Other resource payload types -/

/-- An assignment (`src/assignment.rs`). -/
structure Assignment where
  available_at : Option Timestamp
  burned_at : Option Timestamp
  created_at : Timestamp
  hidden : Bool
  passed_at : Option Timestamp
  resurrected_at : Option Timestamp
  srs_stage : Nat
  started_at : Option Timestamp
  subject_id : Nat
  subject_type : SubjectType
  unlocked_at : Option Timestamp

def Assignment.encode (a : Assignment) : Json :=
  .obj [("available_at", encOpt encTs a.available_at),
        ("burned_at", encOpt encTs a.burned_at),
        ("created_at", encTs a.created_at),
        ("hidden", .bool a.hidden),
        ("passed_at", encOpt encTs a.passed_at),
        ("resurrected_at", encOpt encTs a.resurrected_at),
        ("srs_stage", encNat a.srs_stage),
        ("started_at", encOpt encTs a.started_at),
        ("subject_id", encNat a.subject_id),
        ("subject_type", a.subject_type.encode),
        ("unlocked_at", encOpt encTs a.unlocked_at)]

def Assignment.decode (j : Json) : Option Assignment := do
  let available_at ← getOptField j "available_at" Json.getInt
  let burned_at ← getOptField j "burned_at" Json.getInt
  let created_at ← getField j "created_at" Json.getInt
  let hidden ← getField j "hidden" Json.getBool
  let passed_at ← getOptField j "passed_at" Json.getInt
  let resurrected_at ← getOptField j "resurrected_at" Json.getInt
  let srs_stage ← getField j "srs_stage" Json.getNat
  let started_at ← getOptField j "started_at" Json.getInt
  let subject_id ← getField j "subject_id" Json.getNat
  let subject_type ← getField j "subject_type" SubjectType.decode
  let unlocked_at ← getOptField j "unlocked_at" Json.getInt
  pure ⟨available_at, burned_at, created_at, hidden, passed_at, resurrected_at,
        srs_stage, started_at, subject_id, subject_type, unlocked_at⟩

/-- The body of the start-assignment request (`AssignmentStart`): its
only field is skipped when unset. -/
structure AssignmentStart where
  started_at : Option Timestamp

def AssignmentStart.encode (a : AssignmentStart) : Json :=
  .obj (skipNoneField "started_at" encTs a.started_at)

def AssignmentStart.decode (j : Json) : Option AssignmentStart := do
  let started_at ← getOptField j "started_at" Json.getInt
  pure ⟨started_at⟩

/-- A level progression (`src/level_progression.rs`). -/
structure LevelProgression where
  abandoned_at : Option Timestamp
  completed_at : Option Timestamp
  created_at : Timestamp
  level : Nat
  passed_at : Option Timestamp
  started_at : Option Timestamp
  unlocked_at : Option Timestamp

def LevelProgression.encode (p : LevelProgression) : Json :=
  .obj [("abandoned_at", encOpt encTs p.abandoned_at),
        ("completed_at", encOpt encTs p.completed_at),
        ("created_at", encTs p.created_at),
        ("level", encNat p.level),
        ("passed_at", encOpt encTs p.passed_at),
        ("started_at", encOpt encTs p.started_at),
        ("unlocked_at", encOpt encTs p.unlocked_at)]

def LevelProgression.decode (j : Json) : Option LevelProgression := do
  let abandoned_at ← getOptField j "abandoned_at" Json.getInt
  let completed_at ← getOptField j "completed_at" Json.getInt
  let created_at ← getField j "created_at" Json.getInt
  let level ← getField j "level" Json.getNat
  let passed_at ← getOptField j "passed_at" Json.getInt
  let started_at ← getOptField j "started_at" Json.getInt
  let unlocked_at ← getOptField j "unlocked_at" Json.getInt
  pure ⟨abandoned_at, completed_at, created_at, level, passed_at, started_at,
        unlocked_at⟩

/-- A reset (`src/reset.rs`). -/
structure Reset where
  confirmed_at : Option Timestamp
  created_at : Timestamp
  original_level : Nat
  target_level : Nat

def Reset.encode (r : Reset) : Json :=
  .obj [("confirmed_at", encOpt encTs r.confirmed_at),
        ("created_at", encTs r.created_at),
        ("original_level", encNat r.original_level),
        ("target_level", encNat r.target_level)]

def Reset.decode (j : Json) : Option Reset := do
  let confirmed_at ← getOptField j "confirmed_at" Json.getInt
  let created_at ← getField j "created_at" Json.getInt
  let original_level ← getField j "original_level" Json.getNat
  let target_level ← getField j "target_level" Json.getNat
  pure ⟨confirmed_at, created_at, original_level, target_level⟩

/-- A review statistic (`src/review_statistic.rs`). -/
structure ReviewStatistic where
  created_at : Timestamp
  hidden : Bool
  meaning_correct : Nat
  meaning_current_streak : Nat
  meaning_incorrect : Nat
  meaning_max_streak : Nat
  percentage_correct : Nat
  reading_correct : Nat
  reading_current_streak : Nat
  reading_incorrect : Nat
  reading_max_streak : Nat
  subject_id : Nat
  subject_type : SubjectType

def ReviewStatistic.encode (s : ReviewStatistic) : Json :=
  .obj [("created_at", encTs s.created_at),
        ("hidden", .bool s.hidden),
        ("meaning_correct", encNat s.meaning_correct),
        ("meaning_current_streak", encNat s.meaning_current_streak),
        ("meaning_incorrect", encNat s.meaning_incorrect),
        ("meaning_max_streak", encNat s.meaning_max_streak),
        ("percentage_correct", encNat s.percentage_correct),
        ("reading_correct", encNat s.reading_correct),
        ("reading_current_streak", encNat s.reading_current_streak),
        ("reading_incorrect", encNat s.reading_incorrect),
        ("reading_max_streak", encNat s.reading_max_streak),
        ("subject_id", encNat s.subject_id),
        ("subject_type", s.subject_type.encode)]

def ReviewStatistic.decode (j : Json) : Option ReviewStatistic := do
  let created_at ← getField j "created_at" Json.getInt
  let hidden ← getField j "hidden" Json.getBool
  let meaning_correct ← getField j "meaning_correct" Json.getNat
  let meaning_current_streak ← getField j "meaning_current_streak" Json.getNat
  let meaning_incorrect ← getField j "meaning_incorrect" Json.getNat
  let meaning_max_streak ← getField j "meaning_max_streak" Json.getNat
  let percentage_correct ← getField j "percentage_correct" Json.getNat
  let reading_correct ← getField j "reading_correct" Json.getNat
  let reading_current_streak ← getField j "reading_current_streak" Json.getNat
  let reading_incorrect ← getField j "reading_incorrect" Json.getNat
  let reading_max_streak ← getField j "reading_max_streak" Json.getNat
  let subject_id ← getField j "subject_id" Json.getNat
  let subject_type ← getField j "subject_type" SubjectType.decode
  pure ⟨created_at, hidden, meaning_correct, meaning_current_streak,
        meaning_incorrect, meaning_max_streak, percentage_correct,
        reading_correct, reading_current_streak, reading_incorrect,
        reading_max_streak, subject_id, subject_type⟩

/-- A study material record (`src/study_material.rs`). -/
structure StudyMaterial where
  created_at : Timestamp
  hidden : Bool
  meaning_note : Option String
  meaning_synonyms : List String
  reading_note : Option String
  subject_id : Nat
  subject_type : SubjectType

def StudyMaterial.encode (m : StudyMaterial) : Json :=
  .obj [("created_at", encTs m.created_at),
        ("hidden", .bool m.hidden),
        ("meaning_note", encOpt Json.str m.meaning_note),
        ("meaning_synonyms", .arr (m.meaning_synonyms.map Json.str)),
        ("reading_note", encOpt Json.str m.reading_note),
        ("subject_id", encNat m.subject_id),
        ("subject_type", m.subject_type.encode)]

def StudyMaterial.decode (j : Json) : Option StudyMaterial := do
  let created_at ← getField j "created_at" Json.getInt
  let hidden ← getField j "hidden" Json.getBool
  let meaning_note ← getOptField j "meaning_note" Json.getStr
  let meaning_synonyms ← getField j "meaning_synonyms" (Json.getArr Json.getStr)
  let reading_note ← getOptField j "reading_note" Json.getStr
  let subject_id ← getField j "subject_id" Json.getNat
  let subject_type ← getField j "subject_type" SubjectType.decode
  pure ⟨created_at, hidden, meaning_note, meaning_synonyms, reading_note,
        subject_id, subject_type⟩

/-- The create-study-material request record
(`study_material::CreateStudyMaterial`).  The domain model is
envelope-free; serialization wraps it (see `CreateStudyMaterial.encode`). -/
structure CreateStudyMaterial where
  subject_id : Nat
  meaning_note : Option String
  reading_note : Option String
  meaning_synonyms : Option (List String)

/-- The inner record of the wrapper: `subject_id` always, the three
optional fields only when set (`skip_serializing_if`). -/
def CreateStudyMaterial.encodeInner (m : CreateStudyMaterial) : Json :=
  .obj ([("subject_id", encNat m.subject_id)] ++
    skipNoneField "meaning_note" Json.str m.meaning_note ++
    skipNoneField "reading_note" Json.str m.reading_note ++
    skipNoneField "meaning_synonyms" (fun l => .arr (l.map Json.str)) m.meaning_synonyms)

/-- The custom `Serialize` impl: the record is wrapped in a single-key
`study_material` envelope at the serialization boundary. -/
def CreateStudyMaterial.encode (m : CreateStudyMaterial) : Json :=
  .obj [("study_material", m.encodeInner)]

def CreateStudyMaterial.decodeInner (j : Json) : Option CreateStudyMaterial := do
  let subject_id ← getField j "subject_id" Json.getNat
  let meaning_note ← getOptField j "meaning_note" Json.getStr
  let reading_note ← getOptField j "reading_note" Json.getStr
  let meaning_synonyms ← getOptField j "meaning_synonyms" (Json.getArr Json.getStr)
  pure ⟨subject_id, meaning_note, reading_note, meaning_synonyms⟩

/-- The custom `Deserialize` impl: unwrap the `study_material` envelope
and decode the inner record. -/
def CreateStudyMaterial.decode (j : Json) : Option CreateStudyMaterial :=
  getField j "study_material" CreateStudyMaterial.decodeInner

/-- Voice actor payload data (`src/voice_actor.rs`). -/
structure VoiceActorData where
  created_at : Timestamp
  name : String
  gender : Gender
  description : String

def VoiceActorData.encode (v : VoiceActorData) : Json :=
  .obj [("created_at", encTs v.created_at), ("name", .str v.name),
        ("gender", v.gender.encode), ("description", .str v.description)]

def VoiceActorData.decode (j : Json) : Option VoiceActorData := do
  let created_at ← getField j "created_at" Json.getInt
  let name ← getField j "name" Json.getStr
  let gender ← getField j "gender" Gender.decode
  let description ← getField j "description" Json.getStr
  pure ⟨created_at, name, gender, description⟩

/-- A voice actor resource (`VoiceActor`): its own `id`, the flattened
common fields and the payload. -/
structure VoiceActor where
  id : Nat
  common : ResourceCommon
  data : VoiceActorData

def VoiceActor.encode (v : VoiceActor) : Json :=
  .obj ([("id", encNat v.id)] ++ v.common.encFields ++ [("data", v.data.encode)])

def VoiceActor.decode (j : Json) : Option VoiceActor := do
  let id ← getField j "id" Json.getNat
  let common ← ResourceCommon.decode j
  let data ← getField j "data" VoiceActorData.decode
  pure ⟨id, common, data⟩

end Wanikani

namespace Wanikani

/-! ## User and summary (`src/user.rs`, `src/summary.rs`) -/

/-- The order in which lessons are presented
(`LessonPresentationOrder`, serde `snake_case`). -/
inductive LessonPresentationOrder where
  | ascendingLevelThenSubject
  | shuffled
  | ascendingLevelThenShuffled

def LessonPresentationOrder.encode : LessonPresentationOrder → Json
  | .ascendingLevelThenSubject => .str "ascending_level_then_subject"
  | .shuffled => .str "shuffled"
  | .ascendingLevelThenShuffled => .str "ascending_level_then_shuffled"

def LessonPresentationOrder.decode : Json → Option LessonPresentationOrder
  | .str "ascending_level_then_subject" => some .ascendingLevelThenSubject
  | .str "shuffled" => some .shuffled
  | .str "ascending_level_then_shuffled" => some .ascendingLevelThenShuffled
  | _ => none

/-- The kind of subscription a user has (`SubscriptionType`). -/
inductive SubscriptionType where
  | free
  | recurring
  | lifetime
  | unknown

def SubscriptionType.encode : SubscriptionType → Json
  | .free => .str "free"
  | .recurring => .str "recurring"
  | .lifetime => .str "lifetime"
  | .unknown => .str "unknown"

def SubscriptionType.decode : Json → Option SubscriptionType
  | .str "free" => some .free
  | .str "recurring" => some .recurring
  | .str "lifetime" => some .lifetime
  | .str "unknown" => some .unknown
  | _ => none

/-- User settings (`Preferences`). -/
structure Preferences where
  default_voice_actor_id : Nat
  extra_study_autoplay_audio : Bool
  lessons_autoplay_audio : Bool
  lessons_batch_size : Nat
  lessons_presentation_order : LessonPresentationOrder
  reviews_autoplay_audio : Bool
  reviews_display_srs_indicator : Bool

def Preferences.encode (p : Preferences) : Json :=
  .obj [("default_voice_actor_id", encNat p.default_voice_actor_id),
        ("extra_study_autoplay_audio", .bool p.extra_study_autoplay_audio),
        ("lessons_autoplay_audio", .bool p.lessons_autoplay_audio),
        ("lessons_batch_size", encNat p.lessons_batch_size),
        ("lessons_presentation_order", p.lessons_presentation_order.encode),
        ("reviews_autoplay_audio", .bool p.reviews_autoplay_audio),
        ("reviews_display_srs_indicator", .bool p.reviews_display_srs_indicator)]

def Preferences.decode (j : Json) : Option Preferences := do
  let default_voice_actor_id ← getField j "default_voice_actor_id" Json.getNat
  let extra_study_autoplay_audio ← getField j "extra_study_autoplay_audio" Json.getBool
  let lessons_autoplay_audio ← getField j "lessons_autoplay_audio" Json.getBool
  let lessons_batch_size ← getField j "lessons_batch_size" Json.getNat
  let lessons_presentation_order ← getField j "lessons_presentation_order" LessonPresentationOrder.decode
  let reviews_autoplay_audio ← getField j "reviews_autoplay_audio" Json.getBool
  let reviews_display_srs_indicator ← getField j "reviews_display_srs_indicator" Json.getBool
  pure ⟨default_voice_actor_id, extra_study_autoplay_audio, lessons_autoplay_audio,
        lessons_batch_size, lessons_presentation_order, reviews_autoplay_audio,
        reviews_display_srs_indicator⟩

/-- Subscription state (`Subscription`); `sub_type` is renamed to
`type` on the wire. -/
structure Subscription where
  active : Bool
  max_level_granted : Nat
  period_ends_at : Option Timestamp
  sub_type : SubscriptionType

def Subscription.encode (s : Subscription) : Json :=
  .obj [("active", .bool s.active),
        ("max_level_granted", encNat s.max_level_granted),
        ("period_ends_at", encOpt encTs s.period_ends_at),
        ("type", s.sub_type.encode)]

def Subscription.decode (j : Json) : Option Subscription := do
  let active ← getField j "active" Json.getBool
  let max_level_granted ← getField j "max_level_granted" Json.getNat
  let period_ends_at ← getOptField j "period_ends_at" Json.getInt
  let sub_type ← getField j "type" SubscriptionType.decode
  pure ⟨active, max_level_granted, period_ends_at, sub_type⟩

/-- User payload data (`UserData`); the UUID `id` is modelled as its
string rendering. -/
structure UserData where
  id : String
  current_vacation_started_at : Option Timestamp
  level : Nat
  preferences : Preferences
  profile_url : String
  started_at : Timestamp
  subscription : Subscription
  username : String

def UserData.encode (u : UserData) : Json :=
  .obj [("id", .str u.id),
        ("current_vacation_started_at", encOpt encTs u.current_vacation_started_at),
        ("level", encNat u.level),
        ("preferences", u.preferences.encode),
        ("profile_url", .str u.profile_url),
        ("started_at", encTs u.started_at),
        ("subscription", u.subscription.encode),
        ("username", .str u.username)]

def UserData.decode (j : Json) : Option UserData := do
  let id ← getField j "id" Json.getStr
  let current_vacation_started_at ← getOptField j "current_vacation_started_at" Json.getInt
  let level ← getField j "level" Json.getNat
  let preferences ← getField j "preferences" Preferences.decode
  let profile_url ← getField j "profile_url" Json.getStr
  let started_at ← getField j "started_at" Json.getInt
  let subscription ← getField j "subscription" Subscription.decode
  let username ← getField j "username" Json.getStr
  pure ⟨id, current_vacation_started_at, level, preferences, profile_url,
        started_at, subscription, username⟩

/-- The user resource (`User`): flattened common fields plus data. -/
structure User where
  common : ResourceCommon
  data : UserData

def User.encode (u : User) : Json :=
  .obj (u.common.encFields ++ [("data", u.data.encode)])

def User.decode (j : Json) : Option User := do
  let common ← ResourceCommon.decode j
  let data ← getField j "data" UserData.decode
  pure ⟨common, data⟩

/-- Summary of available lessons or an upcoming review period
(`ReviewLessonSummary`). -/
structure ReviewLessonSummary where
  available_at : Timestamp
  subject_ids : List Nat

def ReviewLessonSummary.encode (s : ReviewLessonSummary) : Json :=
  .obj [("available_at", encTs s.available_at),
        ("subject_ids", .arr (s.subject_ids.map encNat))]

def ReviewLessonSummary.decode (j : Json) : Option ReviewLessonSummary := do
  let available_at ← getField j "available_at" Json.getInt
  let subject_ids ← getField j "subject_ids" (Json.getArr Json.getNat)
  pure ⟨available_at, subject_ids⟩

/-- Summary report data (`SummaryData`). -/
structure SummaryData where
  lessons : List ReviewLessonSummary
  next_reviews_at : Option Timestamp
  reviews : List ReviewLessonSummary

def SummaryData.encode (s : SummaryData) : Json :=
  .obj [("lessons", .arr (s.lessons.map ReviewLessonSummary.encode)),
        ("next_reviews_at", encOpt encTs s.next_reviews_at),
        ("reviews", .arr (s.reviews.map ReviewLessonSummary.encode))]

def SummaryData.decode (j : Json) : Option SummaryData := do
  let lessons ← getField j "lessons" (Json.getArr ReviewLessonSummary.decode)
  let next_reviews_at ← getOptField j "next_reviews_at" Json.getInt
  let reviews ← getField j "reviews" (Json.getArr ReviewLessonSummary.decode)
  pure ⟨lessons, next_reviews_at, reviews⟩

/-- The summary report (`Summary`): flattened common fields plus data. -/
structure Summary where
  common : ResourceCommon
  data : SummaryData

def Summary.encode (s : Summary) : Json :=
  .obj (s.common.encFields ++ [("data", s.data.encode)])

def Summary.decode (j : Json) : Option Summary := do
  let common ← ResourceCommon.decode j
  let data ← getField j "data" SummaryData.decode
  pure ⟨common, data⟩

/-- The partial user-preference update record (`UpdatePreferences`):
every field optional, every field skipped when unset. -/
structure UpdatePreferences where
  default_voice_actor_id : Option Nat
  extra_study_autoplay_audio : Option Bool
  lessons_autoplay_audio : Option Bool
  lessons_batch_size : Option Nat
  lessons_presentation_order : Option LessonPresentationOrder
  reviews_autoplay_audio : Option Bool
  reviews_display_srs_indicator : Option Bool

def UpdatePreferences.encode (p : UpdatePreferences) : Json :=
  .obj (skipNoneField "default_voice_actor_id" encNat p.default_voice_actor_id ++
    skipNoneField "extra_study_autoplay_audio" Json.bool p.extra_study_autoplay_audio ++
    skipNoneField "lessons_autoplay_audio" Json.bool p.lessons_autoplay_audio ++
    skipNoneField "lessons_batch_size" encNat p.lessons_batch_size ++
    skipNoneField "lessons_presentation_order" LessonPresentationOrder.encode
      p.lessons_presentation_order ++
    skipNoneField "reviews_autoplay_audio" Json.bool p.reviews_autoplay_audio ++
    skipNoneField "reviews_display_srs_indicator" Json.bool
      p.reviews_display_srs_indicator)

def UpdatePreferences.decode (j : Json) : Option UpdatePreferences := do
  let default_voice_actor_id ← getOptField j "default_voice_actor_id" Json.getNat
  let extra_study_autoplay_audio ← getOptField j "extra_study_autoplay_audio" Json.getBool
  let lessons_autoplay_audio ← getOptField j "lessons_autoplay_audio" Json.getBool
  let lessons_batch_size ← getOptField j "lessons_batch_size" Json.getNat
  let lessons_presentation_order ← getOptField j "lessons_presentation_order" LessonPresentationOrder.decode
  let reviews_autoplay_audio ← getOptField j "reviews_autoplay_audio" Json.getBool
  let reviews_display_srs_indicator ← getOptField j "reviews_display_srs_indicator" Json.getBool
  pure ⟨default_voice_actor_id, extra_study_autoplay_audio, lessons_autoplay_audio,
        lessons_batch_size, lessons_presentation_order, reviews_autoplay_audio,
        reviews_display_srs_indicator⟩

/-- The user update request (`UpdateUser`): derived serialization puts
the preference record under the single `preferences` key. -/
structure UpdateUser where
  preferences : UpdatePreferences

def UpdateUser.encode (u : UpdateUser) : Json :=
  .obj [("preferences", u.preferences.encode)]

/-- The `serde_helpers::update_prefs::serialize` helper: it also emits
exactly one `preferences` field holding the preference record. -/
def updatePrefsSerialize (p : UpdatePreferences) : Json :=
  .obj [("preferences", p.encode)]

/-- The `serde_helpers::update_prefs::deserialize` helper: read the
record back out of the `preferences` field. -/
def updatePrefsDeserialize (j : Json) : Option UpdatePreferences :=
  getField j "preferences" UpdatePreferences.decode

end Wanikani

namespace Wanikani

/-! ## Round-trip lemmas

One lemma per codec: decoding an encoded value gives the value back.
These are the building blocks for the round-trip and subject-equivalence
claims. -/

@[simp] theorem getStr_str (s : String) : (Json.str s).getStr = some s := rfl

@[simp] theorem getBool_bool (b : Bool) : (Json.bool b).getBool = some b := rfl

@[simp] theorem getInt_num (n : Int) : (Json.num n).getInt = some n := rfl

@[simp] theorem getNat_encNat (n : Nat) : (encNat n).getNat = some n := rfl

@[simp] theorem getInt_encTs (t : Timestamp) : (encTs t).getInt = some t := rfl

@[simp] theorem getArr_arr (dec : Json → Option α) (es : List Json) :
    Json.getArr dec (.arr es) = decodeList dec es := rfl

theorem decodeList_roundtrip {α : Type} (dec : Json → Option α) (enc : α → Json)
    (h : ∀ x, dec (enc x) = some x) : ∀ l : List α, decodeList dec (l.map enc) = some l := by
  intro l
  induction l with
  | nil => rfl
  | cons x xs ih => simp [decodeList, h, ih]

theorem meaningType_roundtrip (x : MeaningType) :
    MeaningType.decode (MeaningType.encode x) = some x := by cases x <;> rfl

theorem kanjiReadingType_roundtrip (x : KanjiReadingType) :
    KanjiReadingType.decode (KanjiReadingType.encode x) = some x := by cases x <;> rfl

theorem gender_roundtrip (x : Gender) :
    Gender.decode (Gender.encode x) = some x := by cases x <;> rfl

theorem subjectType_roundtrip (x : SubjectType) :
    SubjectType.decode (SubjectType.encode x) = some x := by cases x <;> rfl

theorem resourceType_roundtrip (x : ResourceType) :
    ResourceType.decode (ResourceType.encode x) = some x := by cases x <;> rfl

theorem lessonPresentationOrder_roundtrip (x : LessonPresentationOrder) :
    LessonPresentationOrder.decode (LessonPresentationOrder.encode x) = some x := by
  cases x <;> rfl

theorem subscriptionType_roundtrip (x : SubscriptionType) :
    SubscriptionType.decode (SubscriptionType.encode x) = some x := by cases x <;> rfl

theorem decOptValue_ts (o : Option Timestamp) :
    decOptValue Json.getInt (encOpt encTs o) = some o := by cases o <;> rfl

theorem decOptValue_str (o : Option String) :
    decOptValue Json.getStr (encOpt Json.str o) = some o := by cases o <;> rfl

theorem meaning_roundtrip (m : Meaning) : Meaning.decode (Meaning.encode m) = some m := rfl

theorem auxilliaryMeaning_roundtrip (m : AuxilliaryMeaning) :
    AuxilliaryMeaning.decode (AuxilliaryMeaning.encode m) = some m := by
  simp [AuxilliaryMeaning.decode, AuxilliaryMeaning.encode, getField, jlookup,
    meaningType_roundtrip]

theorem imageMetadata_roundtrip (m : ImageMetadata) :
    ImageMetadata.decode (ImageMetadata.encode m) = some m := by cases m <;> rfl

theorem characterImage_roundtrip (c : CharacterImage) :
    CharacterImage.decode (CharacterImage.encode c) = some c := by
  simp [CharacterImage.decode, CharacterImage.encode, getField, jlookup,
    imageMetadata_roundtrip]

theorem kanjiReading_roundtrip (r : KanjiReading) :
    KanjiReading.decode (KanjiReading.encode r) = some r := by
  simp [KanjiReading.decode, KanjiReading.encode, getField, jlookup,
    kanjiReadingType_roundtrip]

theorem contextSentence_roundtrip (c : ContextSentence) :
    ContextSentence.decode (ContextSentence.encode c) = some c := rfl

theorem audioMetadata_roundtrip (m : AudioMetadata) :
    AudioMetadata.decode (AudioMetadata.encode m) = some m := by
  simp [AudioMetadata.decode, AudioMetadata.encode, getField, jlookup,
    gender_roundtrip]

theorem pronunciationAudio_roundtrip (p : PronunciationAudio) :
    PronunciationAudio.decode (PronunciationAudio.encode p) = some p := by
  simp [PronunciationAudio.decode, PronunciationAudio.encode, getField, jlookup,
    audioMetadata_roundtrip]

theorem vocabularyReading_roundtrip (r : VocabularyReading) :
    VocabularyReading.decode (VocabularyReading.encode r) = some r := rfl

/-- The flattened common subject fields decode from any object that
starts with them, whatever concrete-variant fields follow.  The prefix
is spelled out so the lemma applies after the encoder is unfolded. -/
theorem subjectCommon_decode_encFields (c : SubjectCommon) (extra : List (String × Json)) :
    SubjectCommon.decode (.obj
      (("auxiliary_meanings", .arr (c.auxiliary_meanings.map AuxilliaryMeaning.encode)) ::
       ("created_at", encTs c.created_at) ::
       ("document_url", .str c.document_url) ::
       ("hidden_at", encOpt encTs c.hidden_at) ::
       ("lesson_position", encNat c.lesson_position) ::
       ("level", encNat c.level) ::
       ("meaning_mnemonic", .str c.meaning_mnemonic) ::
       ("meanings", .arr (c.meanings.map Meaning.encode)) ::
       ("slug", .str c.slug) ::
       ("spaced_repetition_system_id", encNat c.spaced_repetition_system_id) ::
       extra)) = some c := by
  simp [SubjectCommon.decode, getField, getOptField, jlookup, decOptValue_ts,
    decodeList_roundtrip AuxilliaryMeaning.decode AuxilliaryMeaning.encode
      auxilliaryMeaning_roundtrip,
    decodeList_roundtrip Meaning.decode Meaning.encode meaning_roundtrip]

theorem radical_roundtrip (r : Radical) : Radical.decode (Radical.encode r) = some r := by
  simp [Radical.decode, Radical.encode, subjectCommon_decode_encFields, getField,
    getOptField, jlookup, SubjectCommon.encFields, decOptValue_str, Json.getArr,
    decodeList_roundtrip Json.getNat encNat (fun _ => rfl),
    decodeList_roundtrip CharacterImage.decode CharacterImage.encode
      characterImage_roundtrip]

theorem kanji_roundtrip (k : Kanji) : Kanji.decode (Kanji.encode k) = some k := by
  simp [Kanji.decode, Kanji.encode, subjectCommon_decode_encFields, getField,
    getOptField, jlookup, SubjectCommon.encFields, decOptValue_str, Json.getArr,
    decodeList_roundtrip Json.getNat encNat (fun _ => rfl),
    decodeList_roundtrip KanjiReading.decode KanjiReading.encode kanjiReading_roundtrip]

theorem vocabulary_roundtrip (v : Vocabulary) :
    Vocabulary.decode (Vocabulary.encode v) = some v := by
  simp [Vocabulary.decode, Vocabulary.encode, subjectCommon_decode_encFields, getField,
    getOptField, jlookup, SubjectCommon.encFields, Json.getArr,
    decodeList_roundtrip Json.getNat encNat (fun _ => rfl),
    decodeList_roundtrip Json.getStr Json.str (fun _ => rfl),
    decodeList_roundtrip ContextSentence.decode ContextSentence.encode
      contextSentence_roundtrip,
    decodeList_roundtrip PronunciationAudio.decode PronunciationAudio.encode
      pronunciationAudio_roundtrip,
    decodeList_roundtrip VocabularyReading.decode VocabularyReading.encode
      vocabularyReading_roundtrip]

theorem kanaVocabulary_roundtrip (v : KanaVocabulary) :
    KanaVocabulary.decode (KanaVocabulary.encode v) = some v := by
  simp [KanaVocabulary.decode, KanaVocabulary.encode, subjectCommon_decode_encFields,
    getField, getOptField, jlookup, SubjectCommon.encFields, Json.getArr,
    decodeList_roundtrip Json.getStr Json.str (fun _ => rfl),
    decodeList_roundtrip ContextSentence.decode ContextSentence.encode
      contextSentence_roundtrip,
    decodeList_roundtrip PronunciationAudio.decode PronunciationAudio.encode
      pronunciationAudio_roundtrip]

end Wanikani

namespace Wanikani

/-! ## Untagged subject decoding: matching and mismatched bodies -/

theorem radical_decode_kanji (k : Kanji) : Radical.decode k.encode = none := by
  simp [Radical.decode, Kanji.encode, SubjectCommon.encFields,
    subjectCommon_decode_encFields, getField, getOptField, jlookup, decOptValue,
    decodeList_roundtrip Json.getNat encNat (fun _ => rfl)]

theorem radical_decode_vocabulary (v : Vocabulary) : Radical.decode v.encode = none := by
  simp [Radical.decode, Vocabulary.encode, SubjectCommon.encFields,
    subjectCommon_decode_encFields, getField, jlookup]

theorem radical_decode_kanaVocabulary (v : KanaVocabulary) :
    Radical.decode v.encode = none := by
  simp [Radical.decode, KanaVocabulary.encode, SubjectCommon.encFields,
    subjectCommon_decode_encFields, getField, jlookup]

theorem kanji_decode_radical (r : Radical) : Kanji.decode r.encode = none := by
  cases h : r.characters <;>
    simp [Kanji.decode, Radical.encode, SubjectCommon.encFields,
      subjectCommon_decode_encFields, getField, jlookup, h, encOpt,
      decodeList_roundtrip Json.getNat encNat (fun _ => rfl)]

theorem kanji_decode_vocabulary (v : Vocabulary) : Kanji.decode v.encode = none := by
  simp [Kanji.decode, Vocabulary.encode, SubjectCommon.encFields,
    subjectCommon_decode_encFields, getField, jlookup]

theorem kanji_decode_kanaVocabulary (v : KanaVocabulary) : Kanji.decode v.encode = none := by
  simp [Kanji.decode, KanaVocabulary.encode, SubjectCommon.encFields,
    subjectCommon_decode_encFields, getField, jlookup]

theorem vocabulary_decode_radical (r : Radical) : Vocabulary.decode r.encode = none := by
  cases h : r.characters <;>
    simp [Vocabulary.decode, Radical.encode, SubjectCommon.encFields,
      subjectCommon_decode_encFields, getField, jlookup, h, encOpt]

theorem vocabulary_decode_kanji (k : Kanji) : Vocabulary.decode k.encode = none := by
  simp [Vocabulary.decode, Kanji.encode, SubjectCommon.encFields,
    subjectCommon_decode_encFields, getField, jlookup,
    decodeList_roundtrip Json.getNat encNat (fun _ => rfl)]

theorem vocabulary_decode_kanaVocabulary (v : KanaVocabulary) :
    Vocabulary.decode v.encode = none := by
  simp [Vocabulary.decode, KanaVocabulary.encode, SubjectCommon.encFields,
    subjectCommon_decode_encFields, getField, jlookup]

theorem Kanavocabulary_decode_radical (r : Radical) :
    KanaVocabulary.decode r.encode = none := by
  cases h : r.characters <;>
    simp [KanaVocabulary.decode, Radical.encode, SubjectCommon.encFields,
      subjectCommon_decode_encFields, getField, jlookup, h, encOpt]

theorem Kanavocabulary_decode_kanji (k : Kanji) : KanaVocabulary.decode k.encode = none := by
  simp [KanaVocabulary.decode, Kanji.encode, SubjectCommon.encFields,
    subjectCommon_decode_encFields, getField, jlookup]

/-- The one mismatched decode that succeeds: a `Vocabulary` body also
decodes as `KanaVocabulary`, because `KanaVocabulary` needs only a
subset of the fields a `Vocabulary` body carries, and serde ignores the
unknown extra fields. -/
theorem kanaVocabulary_decode_vocabulary (v : Vocabulary) :
    KanaVocabulary.decode v.encode =
      some ⟨v.common, v.characters, v.context_sentences, v.parts_of_speech,
            v.pronunciation_audios⟩ := by
  simp [KanaVocabulary.decode, Vocabulary.encode, SubjectCommon.encFields,
    subjectCommon_decode_encFields, getField, jlookup,
    decodeList_roundtrip Json.getStr Json.str (fun _ => rfl),
    decodeList_roundtrip ContextSentence.decode ContextSentence.encode
      contextSentence_roundtrip,
    decodeList_roundtrip PronunciationAudio.decode PronunciationAudio.encode
      pronunciationAudio_roundtrip]

/-- Untagged decoding inverts untagged encoding: the trial order
(`Radical`, `Kanji`, `Vocabulary`, `KanaVocabulary`) recovers the
variant that was serialized. -/
theorem subject_roundtrip (s : Subject) : Subject.decode s.encode = some s := by
  cases s with
  | radical r => simp [Subject.decode, Subject.encode, radical_roundtrip]
  | kanji k =>
    simp [Subject.decode, Subject.encode, radical_decode_kanji, kanji_roundtrip]
  | vocabulary v =>
    simp [Subject.decode, Subject.encode, radical_decode_vocabulary,
      kanji_decode_vocabulary, vocabulary_roundtrip]
  | kanaVocabulary v =>
    simp [Subject.decode, Subject.encode, radical_decode_kanaVocabulary,
      kanji_decode_kanaVocabulary, vocabulary_decode_kanaVocabulary,
      kanaVocabulary_roundtrip]

end Wanikani

namespace Wanikani

/-! ## Envelope and payload round-trips -/

/-- The flattened `ResourceCommon` fields decode from any object that
contains them at this position, whatever fields precede or follow. -/
theorem resourceCommon_decode_encFields (c : ResourceCommon)
    (pre post : List (String × Json))
    (hpre : ∀ p ∈ pre, p.1 ≠ "object" ∧ p.1 ≠ "url" ∧ p.1 ≠ "data_updated_at") :
    ResourceCommon.decode (.obj
      (pre ++ ("object", c.object.encode) :: ("url", .str c.url) ::
       ("data_updated_at", encOpt encTs c.data_updated_at) :: post)) = some c := by
  induction pre with
  | nil =>
    simp [ResourceCommon.decode, getField, getOptField, jlookup, decOptValue_ts,
      resourceType_roundtrip]
  | cons p rest ih =>
    obtain ⟨h₁, h₂, h₃⟩ := hpre p (by simp)
    have ih₁ := ih (fun q hq => hpre q (by simp [hq]))
    simp only [ResourceCommon.decode, getField, getOptField, List.cons_append,
      jlookup, h₁, h₂, h₃, if_neg] at ih₁ ⊢
    exact ih₁

theorem pages_roundtrip (p : Pages) : Pages.decode p.encode = some p := by
  simp [Pages.decode, Pages.encode, getField, getOptField, jlookup, decOptValue_str]

theorem wanikaniError_roundtrip (e : WanikaniError) :
    WanikaniError.decode e.encode = some e := by
  simp [WanikaniError.decode, WanikaniError.encode, getField, getOptField, jlookup,
    decOptValue_str]

/-- `Resource<T>` round-trips whenever its payload codec does. -/
theorem resource_roundtrip (dec : Json → Option α) (enc : α → Json)
    (h : ∀ x, dec (enc x) = some x) (r : Resource α) :
    Resource.decode dec (Resource.encode enc r) = some r := by
  have hc := resourceCommon_decode_encFields r.common [("id", encNat r.id)]
    [("data", enc r.data)] (by simp)
  simp only [ResourceCommon.encFields, List.singleton_append] at hc
  simp [Resource.decode, Resource.encode, ResourceCommon.encFields, getField, jlookup,
    hc, h]

/-- `Collection<T>` round-trips whenever its payload codec does. -/
theorem collection_roundtrip (dec : Json → Option α) (enc : α → Json)
    (h : ∀ x, dec (enc x) = some x) (c : Collection α) :
    Collection.decode dec (Collection.encode enc c) = some c := by
  have hc := resourceCommon_decode_encFields c.common []
    [("pages", c.pages.encode), ("total_count", encNat c.total_count),
     ("data", .arr (c.data.map (Resource.encode enc)))] (by simp)
  simp only [ResourceCommon.encFields, List.nil_append] at hc
  simp [Collection.decode, Collection.encode, ResourceCommon.encFields, getField,
    jlookup, hc, pages_roundtrip,
    decodeList_roundtrip (Resource.decode dec) (Resource.encode enc)
      (resource_roundtrip dec enc h)]

theorem assignment_roundtrip (a : Assignment) : Assignment.decode a.encode = some a := by
  simp [Assignment.decode, Assignment.encode, getField, getOptField, jlookup,
    decOptValue_ts, subjectType_roundtrip]

theorem assignmentStart_roundtrip (a : AssignmentStart) :
    AssignmentStart.decode a.encode = some a := by
  obtain ⟨o⟩ := a
  cases o <;>
    simp [AssignmentStart.decode, AssignmentStart.encode, getOptField, jlookup,
      skipNoneField, decOptValue, encTs]

theorem levelProgression_roundtrip (p : LevelProgression) :
    LevelProgression.decode p.encode = some p := by
  simp [LevelProgression.decode, LevelProgression.encode, getField, getOptField,
    jlookup, decOptValue_ts]

theorem reset_roundtrip (r : Reset) : Reset.decode r.encode = some r := by
  simp [Reset.decode, Reset.encode, getField, getOptField, jlookup, decOptValue_ts]

theorem reviewStatistic_roundtrip (s : ReviewStatistic) :
    ReviewStatistic.decode s.encode = some s := by
  simp [ReviewStatistic.decode, ReviewStatistic.encode, getField, jlookup,
    subjectType_roundtrip]

theorem studyMaterial_roundtrip (m : StudyMaterial) :
    StudyMaterial.decode m.encode = some m := by
  simp [StudyMaterial.decode, StudyMaterial.encode, getField, getOptField, jlookup,
    decOptValue_str, subjectType_roundtrip,
    decodeList_roundtrip Json.getStr Json.str (fun _ => rfl)]

theorem createStudyMaterial_roundtrip (m : CreateStudyMaterial) :
    CreateStudyMaterial.decode m.encode = some m := by
  obtain ⟨sid, mn, rn, ms⟩ := m
  cases mn <;> cases rn <;> cases ms <;>
    simp [CreateStudyMaterial.decode, CreateStudyMaterial.encode,
      CreateStudyMaterial.decodeInner, CreateStudyMaterial.encodeInner,
      getField, getOptField, jlookup, skipNoneField, decOptValue,
      decodeList_roundtrip Json.getStr Json.str (fun _ => rfl)]

theorem voiceActorData_roundtrip (v : VoiceActorData) :
    VoiceActorData.decode v.encode = some v := by
  simp [VoiceActorData.decode, VoiceActorData.encode, getField, jlookup,
    gender_roundtrip]

theorem voiceActor_roundtrip (v : VoiceActor) : VoiceActor.decode v.encode = some v := by
  have hc := resourceCommon_decode_encFields v.common [("id", encNat v.id)]
    [("data", v.data.encode)] (by simp)
  simp only [ResourceCommon.encFields, List.singleton_append] at hc
  simp [VoiceActor.decode, VoiceActor.encode, ResourceCommon.encFields, getField,
    jlookup, hc, voiceActorData_roundtrip]

theorem preferences_roundtrip (p : Preferences) : Preferences.decode p.encode = some p := by
  simp [Preferences.decode, Preferences.encode, getField, jlookup,
    lessonPresentationOrder_roundtrip]

theorem subscription_roundtrip (s : Subscription) :
    Subscription.decode s.encode = some s := by
  simp [Subscription.decode, Subscription.encode, getField, getOptField, jlookup,
    decOptValue_ts, subscriptionType_roundtrip]

theorem userData_roundtrip (u : UserData) : UserData.decode u.encode = some u := by
  simp [UserData.decode, UserData.encode, getField, getOptField, jlookup,
    decOptValue_ts, preferences_roundtrip, subscription_roundtrip]

theorem user_roundtrip (u : User) : User.decode u.encode = some u := by
  have hc := resourceCommon_decode_encFields u.common []
    [("data", u.data.encode)] (by simp)
  simp only [ResourceCommon.encFields, List.nil_append] at hc
  simp [User.decode, User.encode, ResourceCommon.encFields, getField, jlookup, hc,
    userData_roundtrip]

theorem reviewLessonSummary_roundtrip (s : ReviewLessonSummary) :
    ReviewLessonSummary.decode s.encode = some s := by
  simp [ReviewLessonSummary.decode, ReviewLessonSummary.encode, getField, jlookup,
    decodeList_roundtrip Json.getNat encNat (fun _ => rfl)]

theorem summaryData_roundtrip (s : SummaryData) : SummaryData.decode s.encode = some s := by
  simp [SummaryData.decode, SummaryData.encode, getField, getOptField, jlookup,
    decOptValue_ts,
    decodeList_roundtrip ReviewLessonSummary.decode ReviewLessonSummary.encode
      reviewLessonSummary_roundtrip]

theorem summary_roundtrip (s : Summary) : Summary.decode s.encode = some s := by
  have hc := resourceCommon_decode_encFields s.common []
    [("data", s.data.encode)] (by simp)
  simp only [ResourceCommon.encFields, List.nil_append] at hc
  simp [Summary.decode, Summary.encode, ResourceCommon.encFields, getField, jlookup,
    hc, summaryData_roundtrip]

end Wanikani

namespace Wanikani

/-! ## Filters and query-pair serialization (`src/client/…`)

`Url::query_pairs_mut` is modelled at the query-pair level: a query is
an ordered list of entries, an entry being a key with an optional value
(`append_pair` adds a key with a value, `append_key_only` a bare key).
`queryString` renders the logical (percent-decoding-free) view of that
list; an empty entry list renders to the empty query string. -/

/-- One query entry: key, and value if any. -/
abbrev QEntry := String × Option String

/-- Entries contributed by one `if let Some(v) = field { query.append_…(…) }`
block: nothing when the field is unset, one entry built from the value
otherwise. -/
def optEntry (o : Option α) (f : α → QEntry) : List QEntry :=
  match o with
  | none => []
  | some v => [f v]

/-- Entries contributed by one `if flag { query.append_key_only(k) }`
block: the bare key when the flag is true, nothing otherwise. -/
def flagEntry (b : Bool) (k : String) : List QEntry :=
  if b then [(k, none)] else []

/-- Render one query entry. -/
def QEntry.render : QEntry → String
  | (k, none) => k
  | (k, some v) => k ++ "=" ++ v

/-- Render a query-pair list as the query string. -/
def queryString (l : List QEntry) : String :=
  String.intercalate "&" (l.map QEntry.render)

/-- The entries of a query that carry the given key. -/
def keyEntries (l : List QEntry) (k : String) : List QEntry :=
  l.filter (fun e => e.1 = k)

/-- The `.join(",")` of the string renderings of list elements, as in
every list-valued filter arm. -/
def commaJoin (l : List String) : String := String.intercalate "," l

/-- Day-count to civil date (proleptic Gregorian), used by the RFC 3339
renderer. -/
def civilFromDays (days : Int) : Int × Int × Int :=
  let z := days + 719468
  let era := (if 0 ≤ z then z else z - 146096).ediv 146097
  let doe := z - era * 146097
  let yoe := (doe - doe.ediv 1460 + doe.ediv 36524 - doe.ediv 146096).ediv 365
  let y := yoe + era * 400
  let doy := doe - (365 * yoe + yoe.ediv 4 - yoe.ediv 100)
  let mp := (5 * doy + 2).ediv 153
  let d := doy - (153 * mp + 2).ediv 5 + 1
  let m := mp + (if mp < 10 then 3 else -9)
  (y + (if m ≤ 2 then 1 else 0), m, d)

/-- Left-pad the decimal rendering of a nonnegative integer with zeros. -/
def padNum (width : Nat) (n : Int) : String :=
  let s := toString n.toNat
  String.mk (List.replicate (width - s.length) '0') ++ s

/-- Model of `chrono::DateTime<Utc>::to_rfc3339` on an epoch-millisecond
timestamp: date and time with a `.LLL` millisecond part when the
sub-second part is nonzero, and a `+00:00` offset.  None of the filter
claims depends on the exact rendering; it is spelled out so that filter
serialization is fully executable. -/
def toRfc3339 (t : Timestamp) : String :=
  let ms := t.emod 1000
  let s := t.ediv 1000
  let days := s.ediv 86400
  let sod := s.emod 86400
  let ymd := civilFromDays days
  let frac := if ms = 0 then "" else "." ++ padNum 3 ms
  padNum 4 ymd.1 ++ "-" ++ padNum 2 ymd.2.1 ++ "-" ++ padNum 2 ymd.2.2 ++ "T" ++
    padNum 2 (sod.ediv 3600) ++ ":" ++ padNum 2 ((sod.ediv 60).emod 60) ++ ":" ++
    padNum 2 (sod.emod 60) ++ frac ++ "+00:00"

/-- The `Display` rendering of a `bool` (`true` / `false`). -/
def boolDisplay (b : Bool) : String := if b then "true" else "false"

/-- Filter parameters shared by the id-filtered collections
(`IdFilter`, `src/client/mod.rs`). -/
structure IdFilter where
  ids : Option (List Nat) := none
  updated_after : Option Timestamp := none

/-- `IdFilter::apply_filters`: `ids` as one comma-joined pair, then
`updated_after` as an RFC 3339 pair. -/
def IdFilter.apply_filters (f : IdFilter) : List QEntry :=
  optEntry f.ids (fun ids => ("ids", some (commaJoin (ids.map toString)))) ++
  optEntry f.updated_after (fun v => ("updated_after", some (toRfc3339 v)))

/-- Filter parameters for subjects (`SubjectFilter`,
`src/client/subject.rs`). -/
structure SubjectFilter where
  ids : Option (List Nat) := none
  types : Option (List SubjectType) := none
  slugs : Option (List String) := none
  levels : Option (List Nat) := none
  hidden : Option Bool := none
  updated_after : Option Timestamp := none

/-- `SubjectFilter::apply_filters`, arm for arm in source order. -/
def SubjectFilter.apply_filters (f : SubjectFilter) : List QEntry :=
  optEntry f.ids (fun ids => ("ids", some (commaJoin (ids.map toString)))) ++
  optEntry f.types (fun types =>
    ("types", some (commaJoin (types.map SubjectType.toDisplay)))) ++
  optEntry f.slugs (fun slugs => ("slugs", some (commaJoin slugs))) ++
  optEntry f.levels (fun levels =>
    ("levels", some (commaJoin (levels.map toString)))) ++
  optEntry f.hidden (fun hidden => ("hidden", some (boolDisplay hidden))) ++
  optEntry f.updated_after (fun v => ("updated_after", some (toRfc3339 v)))

/-- Filter parameters for study materials (`StudyMaterialFilter`,
`src/client/study_material.rs`). -/
structure StudyMaterialFilter where
  hidden : Option Bool := none
  ids : Option (List Nat) := none
  subject_ids : Option (List Nat) := none
  subject_types : Option (List SubjectType) := none
  updated_after : Option Timestamp := none

/-- `StudyMaterialFilter::apply_filters`: the arms run in source order
`ids`, `subject_ids`, `subject_types`, `hidden`, `updated_after`. -/
def StudyMaterialFilter.apply_filters (f : StudyMaterialFilter) : List QEntry :=
  optEntry f.ids (fun ids => ("ids", some (commaJoin (ids.map toString)))) ++
  optEntry f.subject_ids (fun ids =>
    ("subject_ids", some (commaJoin (ids.map toString)))) ++
  optEntry f.subject_types (fun types =>
    ("subject_types", some (commaJoin (types.map SubjectType.toDisplay)))) ++
  optEntry f.hidden (fun hidden => ("hidden", some (boolDisplay hidden))) ++
  optEntry f.updated_after (fun v => ("updated_after", some (toRfc3339 v)))

/-- Filter parameters for assignments (`AssignmentFilter`,
`src/client/assignment.rs`). -/
structure AssignmentFilter where
  available_after : Option Timestamp := none
  available_before : Option Timestamp := none
  burned : Option Bool := none
  hidden : Option Bool := none
  ids : Option (List Nat) := none
  immediately_available_for_lessons : Bool := false
  immediately_available_for_review : Bool := false
  in_review : Bool := false
  levels : Option (List Nat) := none
  srs_stages : Option (List Nat) := none
  started : Option Bool := none
  subject_ids : Option (List Nat) := none
  subject_types : Option (List SubjectType) := none
  unlocked : Option Bool := none
  updated_after : Option Timestamp := none

/-- `AssignmentFilter::apply_filters`, arm for arm in source order; the
three pure flags use `append_key_only`. -/
def AssignmentFilter.apply_filters (f : AssignmentFilter) : List QEntry :=
  optEntry f.available_after (fun v => ("available_after", some (toRfc3339 v))) ++
  optEntry f.available_before (fun v => ("available_before", some (toRfc3339 v))) ++
  optEntry f.burned (fun v => ("burned", some (boolDisplay v))) ++
  optEntry f.hidden (fun v => ("hidden", some (boolDisplay v))) ++
  optEntry f.ids (fun ids => ("ids", some (commaJoin (ids.map toString)))) ++
  flagEntry f.immediately_available_for_lessons "immediately_available_for_lessons" ++
  flagEntry f.immediately_available_for_review "immediately_available_for_review" ++
  flagEntry f.in_review "in_review" ++
  optEntry f.levels (fun levels =>
    ("levels", some (commaJoin (levels.map toString)))) ++
  optEntry f.srs_stages (fun v =>
    ("srs_stages", some (commaJoin (v.map toString)))) ++
  optEntry f.started (fun v => ("started", some (boolDisplay v))) ++
  optEntry f.subject_ids (fun v =>
    ("subject_ids", some (commaJoin (v.map toString)))) ++
  optEntry f.subject_types (fun v =>
    ("subject_types", some (commaJoin (v.map SubjectType.toDisplay)))) ++
  optEntry f.unlocked (fun v => ("unlocked", some (boolDisplay v))) ++
  optEntry f.updated_after (fun v => ("updated_after", some (toRfc3339 v)))

/-! ### Key-occurrence lemmas for filter queries -/

theorem keyEntries_append (a b : List QEntry) (k : String) :
    keyEntries (a ++ b) k = keyEntries a k ++ keyEntries b k := by
  simp [keyEntries]

theorem keyEntries_optEntry_ne (o : Option α) (g : α → QEntry) (k : String)
    (h : ∀ v, ¬((g v).1 = k)) : keyEntries (optEntry o g) k = [] := by
  cases o <;> simp [optEntry, keyEntries, List.filter_cons, h]

theorem keyEntries_optEntry_eq (o : Option α) (g : α → QEntry) (k : String)
    (h : ∀ v, (g v).1 = k) : keyEntries (optEntry o g) k = optEntry o g := by
  cases o <;> simp [optEntry, keyEntries, List.filter_cons, h]

theorem keyEntries_flagEntry_ne (b : Bool) (k k₁ : String) (h : ¬(k = k₁)) :
    keyEntries (flagEntry b k) k₁ = [] := by
  cases b <;> simp [flagEntry, keyEntries, List.filter_cons, h]

theorem keyEntries_flagEntry_eq (b : Bool) (k : String) :
    keyEntries (flagEntry b k) k = flagEntry b k := by
  cases b <;> simp [flagEntry, keyEntries, List.filter_cons]

end Wanikani

namespace Wanikani

/-! ## Request executor (`src/client/mod.rs`)

`rate_limit_reset` parses the `Ratelimit-Reset` response header,
defaults to `0` when the header is absent or does not parse as an
`i64`, and converts the epoch seconds to a timestamp through
`NaiveDateTime::from_timestamp_millis(reset * 1000).expect("Valid range")`.
That `expect` is a panic when the millisecond value falls outside the
representable `chrono` range, so the model returns an `Option`, `none`
standing for the panic. -/

/-- Model of Rust `str::parse::<i64>`: an optional sign, then one or
more ASCII digits, and the value must fit in `i64`; anything else is a
parse error. -/
def parseI64 (s : String) : Option Int :=
  let sgn : Int × List Char :=
    match s.toList with
    | '+' :: rest => (1, rest)
    | '-' :: rest => (-1, rest)
    | rest => (1, rest)
  if sgn.2.isEmpty then none
  else if sgn.2.all Char.isDigit then
    let v : Int := sgn.1 * sgn.2.foldl (fun a c => a * 10 + ((c.toNat : Int) - 48)) 0
    if -(2 ^ 63) ≤ v ∧ v ≤ 2 ^ 63 - 1 then some v else none
  else none

/-- The earliest epoch-millisecond value representable by
`chrono::NaiveDateTime` (midnight, January 1, 262145 BCE). -/
def chronoMinMillis : Int := -8334632937600000

/-- The latest epoch-millisecond value representable by
`chrono::NaiveDateTime` (the last millisecond of December 31,
262143 CE). -/
def chronoMaxMillis : Int := 8210298412799999

/-- Model of `NaiveDateTime::from_timestamp_millis`: `none` outside the
representable range. -/
def fromTimestampMillis (ms : Int) : Option Timestamp :=
  if chronoMinMillis ≤ ms ∧ ms ≤ chronoMaxMillis then some ms else none

/-- Response headers: name-value pairs.  Values are modelled as strings
(the visible-ASCII case `HeaderValue::to_str` accepts). -/
abbrev Headers := List (String × String)

/-- ASCII lowercasing of a header name, for case-insensitive
comparison. -/
def lowerAscii (s : String) : String :=
  String.mk (s.toList.map (fun c =>
    if 'A' ≤ c ∧ c ≤ 'Z' then Char.ofNat (c.toNat + 32) else c))

/-- Header lookup is case-insensitive on the header name, as in
`reqwest::header::HeaderMap::get` (header names are ASCII). -/
def headerGet (hs : Headers) (name : String) : Option String :=
  (hs.find? (fun h => lowerAscii h.1 = lowerAscii name)).map (·.2)

/-- `WKClient::rate_limit_reset`: parse the `Ratelimit-Reset` header
(defaulting to `0` with a logged warning when absent or non-numeric),
multiply by 1000 and convert; the conversion panics (`none`) out of
range. -/
def rate_limit_reset (headers : Headers) : Option Timestamp :=
  let reset : Int :=
    match headerGet headers "Ratelimit-Reset" with
    | some s => (parseI64 s).getD 0
    | none => 0
  fromTimestampMillis (reset * 1000)

/-- The client error taxonomy (`Error` in `src/lib.rs`), restricted to
what the executor can produce.  `client` is the transport-layer
(`reqwest`) variant, carrying our model of the underlying failure as a
message string. -/
inductive WKError where
  | waniKaniError (e : WanikaniError)
  | client (msg : String)
  | rateLimit (e : WanikaniError) (reset_time : Timestamp)

/-- One HTTP response as the executor observes it, for an expected
success payload type `α`: the status code, the response headers, and
the two possible readings of the body.  A body is read at most once in
the Rust code; carrying both readings lets one model state what each
reading would give. -/
structure HttpResponse (α : Type) where
  status : Nat
  headers : Headers
  bodyAsT : Except String α
  bodyAsError : Except String WanikaniError

/-- `WKClient::handle_error`: decode the body as a `WanikaniError`; on
success classify by status (429 → rate-limit error with the computed
reset time, else the API error); on failure return the decode failure
as a client error.  `none` models the panic inside
`rate_limit_reset`. -/
def handle_error (r : HttpResponse α) : Option WKError :=
  match r.bodyAsError with
  | .ok e =>
    if r.status = 429 then
      (rate_limit_reset r.headers).map (fun t => WKError.rateLimit e t)
    else
      some (WKError.waniKaniError e)
  | .error msg => some (WKError.client msg)

/-- `WKClient::do_request`: status 200 decodes the body as the expected
type (a decode failure surfaces as a client error via `?`); any other
status goes through `handle_error`.  `none` models a panic. -/
def do_request (r : HttpResponse α) : Option (Except WKError α) :=
  if r.status = 200 then
    match r.bodyAsT with
    | .ok v => some (.ok v)
    | .error msg => some (.error (WKError.client msg))
  else
    (handle_error r).map .error

/-! ## The client value and its `Debug` formatter -/

/-- The version of the API supported by the library (`API_VERSION`). -/
def API_VERSION : String := "20170710"

/-- The base URL of the API (`URL_BASE`). -/
def URL_BASE : String := "https://api.wanikani.com/v2"

/-- The client value (`WKClient`): base URL, the secret bearer token,
the HTTP client (modelled by its `Debug` rendering, the only thing the
claims observe about it) and the revision string. -/
structure WKClient where
  base_url : String
  token : String
  client : String
  version : String

/-- `WKClient::new`. -/
def WKClient.new (token : String) (client : String) : WKClient :=
  ⟨URL_BASE, token, client, API_VERSION⟩

/-- The manual `Debug` impl: `base_url`, `client` and `version` are
rendered, and the `token` field is rendered as the literal `"*snip*"`;
the secret token string is never consulted. -/
def WKClient.debugFmt (c : WKClient) : String :=
  "WKClient \x7b base_url: " ++ c.base_url ++ ", client: " ++ c.client ++
    ", version: \"" ++ c.version ++ "\", token: \"*snip*\" \x7d"

end Wanikani

namespace Wanikani

/-! ## Field-presence lemmas for partial-update bodies -/

/-- Look up a field of a JSON object. -/
def objLookup : Json → String → Option Json
  | .obj fs, k => jlookup fs k
  | _, _ => none

theorem jlookup_skipNone (k₁ k : String) (enc : α → Json) (o : Option α)
    (rest : List (String × Json)) :
    jlookup (skipNoneField k₁ enc o ++ rest) k =
      if k₁ = k then o.elim (jlookup rest k) (fun v => some (enc v))
      else jlookup rest k := by
  cases o <;> by_cases h : k₁ = k <;> simp [skipNoneField, jlookup, h]

theorem jlookup_skipNone_nil (k₁ k : String) (enc : α → Json) (o : Option α) :
    jlookup (skipNoneField k₁ enc o) k =
      if k₁ = k then o.elim none (fun v => some (enc v)) else none := by
  cases o <;> by_cases h : k₁ = k <;> simp [skipNoneField, jlookup, h]

theorem Option.elim_none_map (o : Option α) (f : α → β) :
    o.elim none (fun v => some (f v)) = o.map f := by cases o <;> rfl

/-- A lookup in an association list whose values are all non-null never
returns `null`. -/
theorem jlookup_ne_null (fs : List (String × Json))
    (h : ∀ p ∈ fs, p.2 ≠ Json.null) (k : String) :
    jlookup fs k ≠ some Json.null := by
  induction fs with
  | nil => simp [jlookup]
  | cons p rest ih =>
    obtain ⟨k₁, v⟩ := p
    by_cases hk : k₁ = k
    · simpa [jlookup, hk] using fun hv => h (k₁, v) (by simp) (by simpa using hv)
    · simpa [jlookup, hk] using ih (fun q hq => h q (by simp [hq]))

/-- Every field a `skipNoneField` block contributes carries the encoded
value of the set field. -/
theorem skipNoneField_mem (k : String) (enc : α → Json) (o : Option α) (p : String × Json)
    (hp : p ∈ skipNoneField k enc o) : ∃ v, o = some v ∧ p = (k, enc v) := by
  cases o with
  | none => simp [skipNoneField] at hp
  | some v => exact ⟨v, rfl, by simpa [skipNoneField] using hp⟩

/-- Decoding a `Resource` wire body with any payload decoder that
succeeds on the payload field gives the same `id` and `common`. -/
theorem resource_decode_with (dec : Json → Option β) (enc : α → Json)
    (r : Resource α) (b : β) (h : dec (enc r.data) = some b) :
    Resource.decode dec (Resource.encode enc r) = some ⟨r.id, r.common, b⟩ := by
  have hc := resourceCommon_decode_encFields r.common [("id", encNat r.id)]
    [("data", enc r.data)] (by simp)
  simp only [ResourceCommon.encFields, List.singleton_append] at hc
  simp [Resource.decode, Resource.encode, ResourceCommon.encFields, getField, jlookup,
    hc, h]

end Wanikani

namespace Wanikani

theorem optEntry_some (v : α) (g : α → QEntry) : optEntry (some v) g = [g v] := rfl

theorem keyEntries_single_eq (k : String) (v : Option String) :
    keyEntries [(k, v)] k = [(k, v)] := by
  simp [keyEntries, List.filter_cons]

theorem keyEntries_cons_self (k : String) (v : Option String) (rest : List QEntry) :
    keyEntries ((k, v) :: rest) k = (k, v) :: keyEntries rest k := by
  simp [keyEntries, List.filter_cons]

/-! ## Per-field filter lemmas

One lemma per list-valued filter field: when the field is set, its key
appears exactly once in the generated query, holding the comma-joined
renderings in insertion order; keys of other arms never collide. -/

theorem idFilter_ids_once (f : IdFilter) (l : List Nat) (h : f.ids = some l) :
    keyEntries f.apply_filters "ids" = [("ids", some (commaJoin (l.map toString)))] := by
  simp [IdFilter.apply_filters, keyEntries_append, keyEntries_optEntry_ne,
    keyEntries_single_eq, keyEntries_cons_self, h, optEntry_some]

theorem subjectFilter_ids_once (f : SubjectFilter) (l : List Nat) (h : f.ids = some l) :
    keyEntries f.apply_filters "ids" = [("ids", some (commaJoin (l.map toString)))] := by
  simp [SubjectFilter.apply_filters, keyEntries_append, keyEntries_optEntry_ne,
    keyEntries_single_eq, keyEntries_cons_self, h, optEntry_some]

theorem subjectFilter_types_once (f : SubjectFilter) (l : List SubjectType)
    (h : f.types = some l) :
    keyEntries f.apply_filters "types" =
      [("types", some (commaJoin (l.map SubjectType.toDisplay)))] := by
  simp [SubjectFilter.apply_filters, keyEntries_append, keyEntries_optEntry_ne,
    keyEntries_single_eq, keyEntries_cons_self, h, optEntry_some]

theorem subjectFilter_slugs_once (f : SubjectFilter) (l : List String)
    (h : f.slugs = some l) :
    keyEntries f.apply_filters "slugs" = [("slugs", some (commaJoin l))] := by
  simp [SubjectFilter.apply_filters, keyEntries_append, keyEntries_optEntry_ne,
    keyEntries_single_eq, keyEntries_cons_self, h, optEntry_some]

theorem subjectFilter_levels_once (f : SubjectFilter) (l : List Nat)
    (h : f.levels = some l) :
    keyEntries f.apply_filters "levels" =
      [("levels", some (commaJoin (l.map toString)))] := by
  simp [SubjectFilter.apply_filters, keyEntries_append, keyEntries_optEntry_ne,
    keyEntries_single_eq, keyEntries_cons_self, h, optEntry_some]

theorem studyMaterialFilter_ids_once (f : StudyMaterialFilter) (l : List Nat)
    (h : f.ids = some l) :
    keyEntries f.apply_filters "ids" = [("ids", some (commaJoin (l.map toString)))] := by
  simp [StudyMaterialFilter.apply_filters, keyEntries_append, keyEntries_optEntry_ne,
    keyEntries_single_eq, keyEntries_cons_self, h, optEntry_some]

theorem studyMaterialFilter_subject_ids_once (f : StudyMaterialFilter) (l : List Nat)
    (h : f.subject_ids = some l) :
    keyEntries f.apply_filters "subject_ids" =
      [("subject_ids", some (commaJoin (l.map toString)))] := by
  simp [StudyMaterialFilter.apply_filters, keyEntries_append, keyEntries_optEntry_ne,
    keyEntries_single_eq, keyEntries_cons_self, h, optEntry_some]

theorem studyMaterialFilter_subject_types_once (f : StudyMaterialFilter)
    (l : List SubjectType) (h : f.subject_types = some l) :
    keyEntries f.apply_filters "subject_types" =
      [("subject_types", some (commaJoin (l.map SubjectType.toDisplay)))] := by
  simp [StudyMaterialFilter.apply_filters, keyEntries_append, keyEntries_optEntry_ne,
    keyEntries_single_eq, keyEntries_cons_self, h, optEntry_some]

theorem assignmentFilter_ids_once (f : AssignmentFilter) (l : List Nat)
    (h : f.ids = some l) :
    keyEntries f.apply_filters "ids" = [("ids", some (commaJoin (l.map toString)))] := by
  simp [AssignmentFilter.apply_filters, keyEntries_append, keyEntries_optEntry_ne,
    keyEntries_single_eq, keyEntries_cons_self, keyEntries_flagEntry_ne, h, optEntry_some]

theorem assignmentFilter_levels_once (f : AssignmentFilter) (l : List Nat)
    (h : f.levels = some l) :
    keyEntries f.apply_filters "levels" =
      [("levels", some (commaJoin (l.map toString)))] := by
  simp [AssignmentFilter.apply_filters, keyEntries_append, keyEntries_optEntry_ne,
    keyEntries_single_eq, keyEntries_cons_self, keyEntries_flagEntry_ne, h, optEntry_some]

theorem assignmentFilter_srs_stages_once (f : AssignmentFilter) (l : List Nat)
    (h : f.srs_stages = some l) :
    keyEntries f.apply_filters "srs_stages" =
      [("srs_stages", some (commaJoin (l.map toString)))] := by
  simp [AssignmentFilter.apply_filters, keyEntries_append, keyEntries_optEntry_ne,
    keyEntries_single_eq, keyEntries_cons_self, keyEntries_flagEntry_ne, h, optEntry_some]

theorem assignmentFilter_subject_ids_once (f : AssignmentFilter) (l : List Nat)
    (h : f.subject_ids = some l) :
    keyEntries f.apply_filters "subject_ids" =
      [("subject_ids", some (commaJoin (l.map toString)))] := by
  simp [AssignmentFilter.apply_filters, keyEntries_append, keyEntries_optEntry_ne,
    keyEntries_single_eq, keyEntries_cons_self, keyEntries_flagEntry_ne, h, optEntry_some]

theorem assignmentFilter_subject_types_once (f : AssignmentFilter)
    (l : List SubjectType) (h : f.subject_types = some l) :
    keyEntries f.apply_filters "subject_types" =
      [("subject_types", some (commaJoin (l.map SubjectType.toDisplay)))] := by
  simp [AssignmentFilter.apply_filters, keyEntries_append, keyEntries_optEntry_ne,
    keyEntries_single_eq, keyEntries_cons_self, keyEntries_flagEntry_ne, h, optEntry_some]

/-! One lemma per pure flag of `AssignmentFilter`. -/

theorem assignmentFilter_lessons_flag (f : AssignmentFilter) :
    keyEntries f.apply_filters "immediately_available_for_lessons" =
      flagEntry f.immediately_available_for_lessons "immediately_available_for_lessons" := by
  simp only [AssignmentFilter.apply_filters, keyEntries_append]
  rw [keyEntries_flagEntry_eq]
  simp [keyEntries_optEntry_ne, keyEntries_flagEntry_ne]

theorem assignmentFilter_review_flag (f : AssignmentFilter) :
    keyEntries f.apply_filters "immediately_available_for_review" =
      flagEntry f.immediately_available_for_review "immediately_available_for_review" := by
  simp only [AssignmentFilter.apply_filters, keyEntries_append]
  rw [keyEntries_flagEntry_eq]
  simp [keyEntries_optEntry_ne, keyEntries_flagEntry_ne]

theorem assignmentFilter_in_review_flag (f : AssignmentFilter) :
    keyEntries f.apply_filters "in_review" =
      flagEntry f.in_review "in_review" := by
  simp only [AssignmentFilter.apply_filters, keyEntries_append]
  rw [keyEntries_flagEntry_eq]
  simp [keyEntries_optEntry_ne, keyEntries_flagEntry_ne]

end Wanikani

namespace Wanikani

/-! ## Claim theorems -/

/-- C4: for every filter struct (`IdFilter`, `SubjectFilter`,
`StudyMaterialFilter`, `AssignmentFilter`) in its default state — every
optional field unset and every flag false — applying the filter adds no
query pairs at all, and the rendered query string is empty. -/
theorem C4_default_filters_no_query :
    IdFilter.apply_filters {} = [] ∧
    queryString (IdFilter.apply_filters {}) = "" ∧
    SubjectFilter.apply_filters {} = [] ∧
    queryString (SubjectFilter.apply_filters {}) = "" ∧
    StudyMaterialFilter.apply_filters {} = [] ∧
    queryString (StudyMaterialFilter.apply_filters {}) = "" ∧
    AssignmentFilter.apply_filters {} = [] ∧
    queryString (AssignmentFilter.apply_filters {}) = "" :=
  ⟨rfl, rfl, rfl, rfl, rfl, rfl, rfl, rfl⟩

/-- C5: for every list-valued filter field that is set, the generated
query carries that parameter key exactly once, its value being the
elements' string renderings joined by commas in insertion order — never
repeated keys.  One conjunct per list-valued field of the four
filters. -/
theorem C5_list_filters_comma_joined :
    (∀ (f : IdFilter) (l : List Nat), f.ids = some l →
       keyEntries f.apply_filters "ids" =
         [("ids", some (commaJoin (l.map toString)))]) ∧
    (∀ (f : SubjectFilter) (l : List Nat), f.ids = some l →
       keyEntries f.apply_filters "ids" =
         [("ids", some (commaJoin (l.map toString)))]) ∧
    (∀ (f : SubjectFilter) (l : List SubjectType), f.types = some l →
       keyEntries f.apply_filters "types" =
         [("types", some (commaJoin (l.map SubjectType.toDisplay)))]) ∧
    (∀ (f : SubjectFilter) (l : List String), f.slugs = some l →
       keyEntries f.apply_filters "slugs" = [("slugs", some (commaJoin l))]) ∧
    (∀ (f : SubjectFilter) (l : List Nat), f.levels = some l →
       keyEntries f.apply_filters "levels" =
         [("levels", some (commaJoin (l.map toString)))]) ∧
    (∀ (f : StudyMaterialFilter) (l : List Nat), f.ids = some l →
       keyEntries f.apply_filters "ids" =
         [("ids", some (commaJoin (l.map toString)))]) ∧
    (∀ (f : StudyMaterialFilter) (l : List Nat), f.subject_ids = some l →
       keyEntries f.apply_filters "subject_ids" =
         [("subject_ids", some (commaJoin (l.map toString)))]) ∧
    (∀ (f : StudyMaterialFilter) (l : List SubjectType), f.subject_types = some l →
       keyEntries f.apply_filters "subject_types" =
         [("subject_types", some (commaJoin (l.map SubjectType.toDisplay)))]) ∧
    (∀ (f : AssignmentFilter) (l : List Nat), f.ids = some l →
       keyEntries f.apply_filters "ids" =
         [("ids", some (commaJoin (l.map toString)))]) ∧
    (∀ (f : AssignmentFilter) (l : List Nat), f.levels = some l →
       keyEntries f.apply_filters "levels" =
         [("levels", some (commaJoin (l.map toString)))]) ∧
    (∀ (f : AssignmentFilter) (l : List Nat), f.srs_stages = some l →
       keyEntries f.apply_filters "srs_stages" =
         [("srs_stages", some (commaJoin (l.map toString)))]) ∧
    (∀ (f : AssignmentFilter) (l : List Nat), f.subject_ids = some l →
       keyEntries f.apply_filters "subject_ids" =
         [("subject_ids", some (commaJoin (l.map toString)))]) ∧
    (∀ (f : AssignmentFilter) (l : List SubjectType), f.subject_types = some l →
       keyEntries f.apply_filters "subject_types" =
         [("subject_types", some (commaJoin (l.map SubjectType.toDisplay)))]) :=
  ⟨idFilter_ids_once, subjectFilter_ids_once, subjectFilter_types_once,
   subjectFilter_slugs_once, subjectFilter_levels_once, studyMaterialFilter_ids_once,
   studyMaterialFilter_subject_ids_once, studyMaterialFilter_subject_types_once,
   assignmentFilter_ids_once, assignmentFilter_levels_once,
   assignmentFilter_srs_stages_once, assignmentFilter_subject_ids_once,
   assignmentFilter_subject_types_once⟩

/-- Witness for C5 at concrete inputs: ids set to `[5, 3, 10]` render
`5,3,10` under one `ids` key; subject types render their display names
in insertion order under one `types` key. -/
theorem C5_list_filters_comma_joined_witness :
    keyEntries (AssignmentFilter.apply_filters { ids := some [5, 3, 10] }) "ids" =
      [("ids", some "5,3,10")] ∧
    keyEntries (SubjectFilter.apply_filters
        { types := some [.kanji, .radical] }) "types" =
      [("types", some "kanji,radical")] :=
  ⟨C5_list_filters_comma_joined.2.2.2.2.2.2.2.2.1 { ids := some [5, 3, 10] }
     [5, 3, 10] rfl,
   C5_list_filters_comma_joined.2.2.1 { types := some [.kanji, .radical] }
     [.kanji, .radical] rfl⟩

/-- C6: each of the three pure-flag fields of `AssignmentFilter`
contributes the bare key (no value) exactly once when the flag is true,
and nothing at all when it is false — in particular it is never
serialized as `=false`. -/
theorem C6_pure_flags (f : AssignmentFilter) :
    (keyEntries f.apply_filters "immediately_available_for_lessons" =
      if f.immediately_available_for_lessons
      then [("immediately_available_for_lessons", (none : Option String))] else []) ∧
    (keyEntries f.apply_filters "immediately_available_for_review" =
      if f.immediately_available_for_review
      then [("immediately_available_for_review", (none : Option String))] else []) ∧
    (keyEntries f.apply_filters "in_review" =
      if f.in_review then [("in_review", (none : Option String))] else []) :=
  ⟨(assignmentFilter_lessons_flag f).trans rfl,
   (assignmentFilter_review_flag f).trans rfl,
   (assignmentFilter_in_review_flag f).trans rfl⟩

end Wanikani

namespace Wanikani

/-- C7: for every embedded resource payload type and every instance,
serializing to JSON and deserializing yields the original value.  The
conjunction covers the `Resource`-wrapped payloads (with the untagged
subject union and the flattened common fields), a collection envelope,
the self-describing resources (`VoiceActor`, `User`, `Summary`), the
error body, and the mutation bodies. -/
theorem C7_roundtrip :
    (∀ r : Resource Subject,
       Resource.decode Subject.decode (Resource.encode Subject.encode r) = some r) ∧
    (∀ r : Resource Assignment,
       Resource.decode Assignment.decode (Resource.encode Assignment.encode r) = some r) ∧
    (∀ r : Resource LevelProgression,
       Resource.decode LevelProgression.decode
         (Resource.encode LevelProgression.encode r) = some r) ∧
    (∀ r : Resource Reset,
       Resource.decode Reset.decode (Resource.encode Reset.encode r) = some r) ∧
    (∀ r : Resource ReviewStatistic,
       Resource.decode ReviewStatistic.decode
         (Resource.encode ReviewStatistic.encode r) = some r) ∧
    (∀ r : Resource StudyMaterial,
       Resource.decode StudyMaterial.decode
         (Resource.encode StudyMaterial.encode r) = some r) ∧
    (∀ c : Collection Subject,
       Collection.decode Subject.decode (Collection.encode Subject.encode c) = some c) ∧
    (∀ c : Collection Assignment,
       Collection.decode Assignment.decode
         (Collection.encode Assignment.encode c) = some c) ∧
    (∀ v : VoiceActor, VoiceActor.decode v.encode = some v) ∧
    (∀ u : User, User.decode u.encode = some u) ∧
    (∀ s : Summary, Summary.decode s.encode = some s) ∧
    (∀ e : WanikaniError, WanikaniError.decode e.encode = some e) ∧
    (∀ m : CreateStudyMaterial, CreateStudyMaterial.decode m.encode = some m) ∧
    (∀ a : AssignmentStart, AssignmentStart.decode a.encode = some a) :=
  ⟨resource_roundtrip _ _ subject_roundtrip,
   resource_roundtrip _ _ assignment_roundtrip,
   resource_roundtrip _ _ levelProgression_roundtrip,
   resource_roundtrip _ _ reset_roundtrip,
   resource_roundtrip _ _ reviewStatistic_roundtrip,
   resource_roundtrip _ _ studyMaterial_roundtrip,
   collection_roundtrip _ _ subject_roundtrip,
   collection_roundtrip _ _ assignment_roundtrip,
   voiceActor_roundtrip, user_roundtrip, summary_roundtrip,
   wanikaniError_roundtrip, createStudyMaterial_roundtrip,
   assignmentStart_roundtrip⟩

/-- C2 (amended): for every subject response body of a concrete payload
type, the untagged `Subject` path and the concrete path decode to
identical `id`, `common` and payload values, and decoding through a
mismatched concrete type fails — with one exception the counterexample
forces: a `Vocabulary` body also decodes as `KanaVocabulary` (keeping
its subset of the fields), because serde ignores unknown fields. -/
theorem C2_subject_paths :
    (∀ rr : Resource Radical,
       Resource.decode Subject.decode (Resource.encode Radical.encode rr) =
         some ⟨rr.id, rr.common, .radical rr.data⟩ ∧
       Resource.decode Radical.decode (Resource.encode Radical.encode rr) = some rr ∧
       Kanji.decode (Radical.encode rr.data) = none ∧
       Vocabulary.decode (Radical.encode rr.data) = none ∧
       KanaVocabulary.decode (Radical.encode rr.data) = none) ∧
    (∀ rk : Resource Kanji,
       Resource.decode Subject.decode (Resource.encode Kanji.encode rk) =
         some ⟨rk.id, rk.common, .kanji rk.data⟩ ∧
       Resource.decode Kanji.decode (Resource.encode Kanji.encode rk) = some rk ∧
       Radical.decode (Kanji.encode rk.data) = none ∧
       Vocabulary.decode (Kanji.encode rk.data) = none ∧
       KanaVocabulary.decode (Kanji.encode rk.data) = none) ∧
    (∀ rv : Resource Vocabulary,
       Resource.decode Subject.decode (Resource.encode Vocabulary.encode rv) =
         some ⟨rv.id, rv.common, .vocabulary rv.data⟩ ∧
       Resource.decode Vocabulary.decode (Resource.encode Vocabulary.encode rv) =
         some rv ∧
       Radical.decode (Vocabulary.encode rv.data) = none ∧
       Kanji.decode (Vocabulary.encode rv.data) = none ∧
       KanaVocabulary.decode (Vocabulary.encode rv.data) =
         some ⟨rv.data.common, rv.data.characters, rv.data.context_sentences,
               rv.data.parts_of_speech, rv.data.pronunciation_audios⟩) ∧
    (∀ rkv : Resource KanaVocabulary,
       Resource.decode Subject.decode (Resource.encode KanaVocabulary.encode rkv) =
         some ⟨rkv.id, rkv.common, .kanaVocabulary rkv.data⟩ ∧
       Resource.decode KanaVocabulary.decode
         (Resource.encode KanaVocabulary.encode rkv) = some rkv ∧
       Radical.decode (KanaVocabulary.encode rkv.data) = none ∧
       Kanji.decode (KanaVocabulary.encode rkv.data) = none ∧
       Vocabulary.decode (KanaVocabulary.encode rkv.data) = none) :=
  ⟨fun rr =>
    ⟨resource_decode_with Subject.decode Radical.encode rr _
       (subject_roundtrip (.radical rr.data)),
     resource_roundtrip _ _ radical_roundtrip rr,
     kanji_decode_radical rr.data, vocabulary_decode_radical rr.data,
     Kanavocabulary_decode_radical rr.data⟩,
   fun rk =>
    ⟨resource_decode_with Subject.decode Kanji.encode rk _
       (subject_roundtrip (.kanji rk.data)),
     resource_roundtrip _ _ kanji_roundtrip rk,
     radical_decode_kanji rk.data, vocabulary_decode_kanji rk.data,
     Kanavocabulary_decode_kanji rk.data⟩,
   fun rv =>
    ⟨resource_decode_with Subject.decode Vocabulary.encode rv _
       (subject_roundtrip (.vocabulary rv.data)),
     resource_roundtrip _ _ vocabulary_roundtrip rv,
     radical_decode_vocabulary rv.data, kanji_decode_vocabulary rv.data,
     kanaVocabulary_decode_vocabulary rv.data⟩,
   fun rkv =>
    ⟨resource_decode_with Subject.decode KanaVocabulary.encode rkv _
       (subject_roundtrip (.kanaVocabulary rkv.data)),
     resource_roundtrip _ _ kanaVocabulary_roundtrip rkv,
     radical_decode_kanaVocabulary rkv.data, kanji_decode_kanaVocabulary rkv.data,
     vocabulary_decode_kanaVocabulary rkv.data⟩⟩

/-- A concrete minimal vocabulary subject, used to refute the claim
that every mismatched concrete decode fails. -/
def sampleVocabulary : Vocabulary :=
  ⟨⟨[], 0, "https://www.wanikani.com/vocabulary/one", none, 44, 1, "mnemonic", [],
    "one", 1⟩,
   "one-char", [440], [], ["numeral"], [], [], "reading mnemonic"⟩

/-- Does an untagged decode yield the `Vocabulary` variant? -/
def Subject.isVocabulary : Subject → Bool
  | .vocabulary _ => true
  | _ => false

/-- Counterexample to C2 as stated: this body is a `Vocabulary` body —
the untagged path decodes it to the `Vocabulary` variant — yet decoding
it via the mismatched concrete type `KanaVocabulary` succeeds instead
of failing. -/
theorem C2_counterexample :
    (Subject.decode sampleVocabulary.encode).map Subject.isVocabulary = some true ∧
    (KanaVocabulary.decode sampleVocabulary.encode).isSome = true :=
  ⟨rfl, rfl⟩

end Wanikani

namespace Wanikani

/-- C1 (amended): for every 429 response whose body decodes as a
`WanikaniError`, the executor returns a rate-limit error carrying that
error; the reset timestamp is the instant at the header's epoch-seconds
value whenever that value, in milliseconds, is representable (the
amendment the counterexample forces: an unrepresentable numeric value
makes the conversion panic instead), and an absent or non-numeric
header value defaults to epoch 0 without failing classification. -/
theorem C1_rate_limit_classification {α : Type} (r : HttpResponse α)
    (e : WanikaniError) (hs : r.status = 429) (hb : r.bodyAsError = .ok e) :
    (∀ s n, headerGet r.headers "Ratelimit-Reset" = some s → parseI64 s = some n →
       chronoMinMillis ≤ n * 1000 → n * 1000 ≤ chronoMaxMillis →
       do_request r = some (.error (.rateLimit e (n * 1000)))) ∧
    (∀ s, headerGet r.headers "Ratelimit-Reset" = some s → parseI64 s = none →
       do_request r = some (.error (.rateLimit e 0))) ∧
    (headerGet r.headers "Ratelimit-Reset" = none →
       do_request r = some (.error (.rateLimit e 0))) := by
  refine ⟨fun s n hh hp h1 h2 => ?_, fun s hh hp => ?_, fun hh => ?_⟩
  · simp [do_request, hs, handle_error, hb, rate_limit_reset, hh, hp,
      fromTimestampMillis]
    exact ⟨h1, h2⟩
  · simp [do_request, hs, handle_error, hb, rate_limit_reset, hh, hp,
      fromTimestampMillis, chronoMinMillis, chronoMaxMillis]
  · simp [do_request, hs, handle_error, hb, rate_limit_reset, hh,
      fromTimestampMillis, chronoMinMillis, chronoMaxMillis]

/-- Witness for C1 at the spec example: a 429 response with header
`Ratelimit-Reset: 1500000000` produces a rate-limit error whose reset
timestamp is the instant at epoch-seconds 1500000000, and a 429
response with a non-numeric header value still classifies, with reset
epoch 0. -/
theorem C1_rate_limit_classification_witness :
    do_request { status := 429, headers := [("Ratelimit-Reset", "1500000000")],
                 bodyAsT := .error "status was not 200",
                 bodyAsError := .ok ⟨429, some "Rate limit exceeded"⟩
                 : HttpResponse Nat } =
      some (.error (.rateLimit ⟨429, some "Rate limit exceeded"⟩ 1500000000000)) ∧
    do_request { status := 429, headers := [("Ratelimit-Reset", "soon")],
                 bodyAsT := .error "status was not 200",
                 bodyAsError := .ok ⟨429, none⟩ : HttpResponse Nat } =
      some (.error (.rateLimit ⟨429, none⟩ 0)) :=
  ⟨(C1_rate_limit_classification _ ⟨429, some "Rate limit exceeded"⟩ rfl rfl).1
     "1500000000" 1500000000 rfl rfl (by decide) (by decide),
   (C1_rate_limit_classification _ ⟨429, none⟩ rfl rfl).2.1 "soon" rfl rfl⟩

/-- A 429 response whose `Ratelimit-Reset` value parses as an `i64` but
is far outside the representable timestamp range. -/
def rateLimitPanicResponse : HttpResponse Nat :=
  { status := 429, headers := [("Ratelimit-Reset", "9000000000000")],
    bodyAsT := .error "status was not 200",
    bodyAsError := .ok ⟨429, some "Rate limit exceeded"⟩ }

/-- Counterexample to C1 as stated: on this 429 response the executor
does not return a rate-limit error at all — the epoch-seconds value
9000000000000 parses, but `from_timestamp_millis` has no value for it
and the `expect("Valid range")` panics, modelled as `none`. -/
theorem C1_counterexample : do_request rateLimitPanicResponse = none := rfl

/-- C3: status 200 yields the decoded typed value; any non-200, non-429
status whose body decodes as a `WanikaniError` yields the typed API
error wrapping it; and any non-200 response whose body does not decode
as a `WanikaniError` yields the underlying decode failure as a
transport-layer (client) error.  The caller always receives one of
these typed values, never a raw status code. -/
theorem C3_error_classification {α : Type} (r : HttpResponse α) :
    (∀ v, r.status = 200 → r.bodyAsT = .ok v → do_request r = some (.ok v)) ∧
    (∀ e, r.status ≠ 200 → r.status ≠ 429 → r.bodyAsError = .ok e →
       do_request r = some (.error (.waniKaniError e))) ∧
    (∀ msg, r.status ≠ 200 → r.bodyAsError = .error msg →
       do_request r = some (.error (.client msg))) := by
  refine ⟨fun v h200 hb => ?_, fun e hn200 hn429 hb => ?_, fun msg hn200 hb => ?_⟩ <;>
    simp [do_request, handle_error, *]

/-- Witness for C3 at concrete responses: a 200 with a decodable body,
a 401 with a decodable error body, and a 500 with an undecodable
body. -/
theorem C3_error_classification_witness :
    do_request { status := 200, headers := [], bodyAsT := .ok 7,
                 bodyAsError := .error "success body" : HttpResponse Nat } =
      some (.ok 7) ∧
    do_request { status := 401, headers := [],
                 bodyAsT := .error "status was not 200",
                 bodyAsError := .ok ⟨401, some "Unauthorized. Please verify the API key."⟩
                 : HttpResponse Nat } =
      some (.error (.waniKaniError ⟨401, some "Unauthorized. Please verify the API key."⟩)) ∧
    do_request { status := 500, headers := [],
                 bodyAsT := .error "status was not 200",
                 bodyAsError := .error "EOF while parsing a value"
                 : HttpResponse Nat } =
      some (.error (.client "EOF while parsing a value")) :=
  ⟨(C3_error_classification _).1 7 rfl rfl,
   (C3_error_classification _).2.1 ⟨401, some "Unauthorized. Please verify the API key."⟩
     (by decide) (by decide) rfl,
   (C3_error_classification _).2.2 "EOF while parsing a value" (by decide) rfl⟩

end Wanikani

namespace Wanikani

/-- C8: the serialized user-update body carries, under the single
`preferences` key, exactly the fields of `UpdatePreferences` that are
set: each field key maps to the encoding of the set value and is absent
(not null) when unset, and no field of the record is ever null. -/
theorem C8_update_preferences_omit_unset (p : UpdatePreferences) :
    updatePrefsSerialize p = Json.obj [("preferences", p.encode)] ∧
    UpdateUser.encode ⟨p⟩ = Json.obj [("preferences", p.encode)] ∧
    objLookup p.encode "default_voice_actor_id" =
      p.default_voice_actor_id.map encNat ∧
    objLookup p.encode "extra_study_autoplay_audio" =
      p.extra_study_autoplay_audio.map Json.bool ∧
    objLookup p.encode "lessons_autoplay_audio" =
      p.lessons_autoplay_audio.map Json.bool ∧
    objLookup p.encode "lessons_batch_size" = p.lessons_batch_size.map encNat ∧
    objLookup p.encode "lessons_presentation_order" =
      p.lessons_presentation_order.map LessonPresentationOrder.encode ∧
    objLookup p.encode "reviews_autoplay_audio" =
      p.reviews_autoplay_audio.map Json.bool ∧
    objLookup p.encode "reviews_display_srs_indicator" =
      p.reviews_display_srs_indicator.map Json.bool ∧
    (∀ k, objLookup p.encode k ≠ some Json.null) := by
  have hlook : ∀ k₀, objLookup p.encode k₀ =
      jlookup (skipNoneField "default_voice_actor_id" encNat p.default_voice_actor_id ++
        (skipNoneField "extra_study_autoplay_audio" Json.bool p.extra_study_autoplay_audio ++
         (skipNoneField "lessons_autoplay_audio" Json.bool p.lessons_autoplay_audio ++
          (skipNoneField "lessons_batch_size" encNat p.lessons_batch_size ++
           (skipNoneField "lessons_presentation_order" LessonPresentationOrder.encode
              p.lessons_presentation_order ++
            (skipNoneField "reviews_autoplay_audio" Json.bool p.reviews_autoplay_audio ++
             skipNoneField "reviews_display_srs_indicator" Json.bool
               p.reviews_display_srs_indicator)))))) k₀ := by
    intro k₀
    simp [UpdatePreferences.encode, objLookup, List.append_assoc]
  refine ⟨rfl, rfl, ?_, ?_, ?_, ?_, ?_, ?_, ?_, ?_⟩
  · simp [hlook, jlookup_skipNone, jlookup_skipNone_nil, Option.elim_none_map]
  · simp [hlook, jlookup_skipNone, jlookup_skipNone_nil, Option.elim_none_map]
  · simp [hlook, jlookup_skipNone, jlookup_skipNone_nil, Option.elim_none_map]
  · simp [hlook, jlookup_skipNone, jlookup_skipNone_nil, Option.elim_none_map]
  · simp [hlook, jlookup_skipNone, jlookup_skipNone_nil, Option.elim_none_map]
  · simp [hlook, jlookup_skipNone, jlookup_skipNone_nil, Option.elim_none_map]
  · simp [hlook, jlookup_skipNone, jlookup_skipNone_nil, Option.elim_none_map]
  · intro k
    have hmem : ∀ q ∈
        (skipNoneField "default_voice_actor_id" encNat p.default_voice_actor_id ++
         skipNoneField "extra_study_autoplay_audio" Json.bool p.extra_study_autoplay_audio ++
         skipNoneField "lessons_autoplay_audio" Json.bool p.lessons_autoplay_audio ++
         skipNoneField "lessons_batch_size" encNat p.lessons_batch_size ++
         skipNoneField "lessons_presentation_order" LessonPresentationOrder.encode
           p.lessons_presentation_order ++
         skipNoneField "reviews_autoplay_audio" Json.bool p.reviews_autoplay_audio ++
         skipNoneField "reviews_display_srs_indicator" Json.bool
           p.reviews_display_srs_indicator), q.2 ≠ Json.null := by
      intro q hq
      simp only [List.mem_append, or_assoc] at hq
      rcases hq with h | h | h | h | h | h | h <;>
        obtain ⟨v, -, rfl⟩ := skipNoneField_mem _ _ _ _ h
      · simp [encNat]
      · simp
      · simp
      · simp [encNat]
      · cases v <;> simp [LessonPresentationOrder.encode]
      · simp
      · simp
    exact jlookup_ne_null _ hmem k

/-- C9: serializing a `CreateStudyMaterial` yields a JSON object with
the single key `study_material`; under it, `subject_id` is always
present and each optional field is present exactly when set (absent,
not null, otherwise); and deserializing the envelope restores the
original record — the wrapper lives only at the serialization
boundary. -/
theorem C9_create_study_material_envelope (m : CreateStudyMaterial) :
    m.encode = Json.obj [("study_material", m.encodeInner)] ∧
    CreateStudyMaterial.decode m.encode = some m ∧
    objLookup m.encodeInner "subject_id" = some (encNat m.subject_id) ∧
    objLookup m.encodeInner "meaning_note" = m.meaning_note.map Json.str ∧
    objLookup m.encodeInner "reading_note" = m.reading_note.map Json.str ∧
    objLookup m.encodeInner "meaning_synonyms" =
      m.meaning_synonyms.map (fun l => Json.arr (l.map Json.str)) := by
  refine ⟨rfl, createStudyMaterial_roundtrip m, ?_, ?_, ?_, ?_⟩ <;>
    simp [CreateStudyMaterial.encodeInner, objLookup, List.append_assoc, jlookup,
      jlookup_skipNone, jlookup_skipNone_nil, Option.elim_none_map]

/-- C10: the `Debug` rendering of a `WKClient` renders the token field
as the literal `"*snip*"` and never consults the secret token, so two
clients that differ only in their token have identical `Debug`
output. -/
theorem C10_debug_hides_token (c₁ c₂ : WKClient) (hb : c₁.base_url = c₂.base_url)
    (hc : c₁.client = c₂.client) (hv : c₁.version = c₂.version) :
    c₁.debugFmt = c₂.debugFmt := by
  simp [WKClient.debugFmt, hb, hc, hv]

/-- Witness for C10: two freshly built clients holding different secret
tokens have the same `Debug` output. -/
theorem C10_debug_hides_token_witness :
    (WKClient.new "secret-token-one" "Client").debugFmt =
      (WKClient.new "a-completely-different-token" "Client").debugFmt :=
  C10_debug_hides_token _ _ rfl rfl rfl

end Wanikani

namespace Wanikani

/-- Witness for C8 at a record with only `default_voice_actor_id` set:
the body is the single-key `preferences` wrapper, the set field is
present with its value, an unset field is absent, and the set field is
not null. -/
theorem C8_update_preferences_omit_unset_witness :
    updatePrefsSerialize ⟨some 2, none, none, none, none, none, none⟩ =
      Json.obj [("preferences",
        UpdatePreferences.encode ⟨some 2, none, none, none, none, none, none⟩)] ∧
    objLookup (UpdatePreferences.encode
        ⟨some 2, none, none, none, none, none, none⟩) "default_voice_actor_id" =
      some (encNat 2) ∧
    objLookup (UpdatePreferences.encode
        ⟨some 2, none, none, none, none, none, none⟩) "lessons_batch_size" = none ∧
    objLookup (UpdatePreferences.encode
        ⟨some 2, none, none, none, none, none, none⟩) "default_voice_actor_id" ≠
      some Json.null :=
  ⟨(C8_update_preferences_omit_unset ⟨some 2, none, none, none, none, none, none⟩).1,
   (C8_update_preferences_omit_unset ⟨some 2, none, none, none, none, none, none⟩).2.2.1,
   (C8_update_preferences_omit_unset ⟨some 2, none, none, none, none, none, none⟩).2.2.2.2.2.1,
   (C8_update_preferences_omit_unset
      ⟨some 2, none, none, none, none, none, none⟩).2.2.2.2.2.2.2.2.2
     "default_voice_actor_id"⟩

/-- Witness for C9 at the record from the repository test (subject 444,
only the meaning note set): single-key envelope, lossless decode, the
set field present, an unset field absent. -/
theorem C9_create_study_material_envelope_witness :
    CreateStudyMaterial.encode ⟨444, some "Meaning", none, none⟩ =
      Json.obj [("study_material",
        CreateStudyMaterial.encodeInner ⟨444, some "Meaning", none, none⟩)] ∧
    CreateStudyMaterial.decode
        (CreateStudyMaterial.encode ⟨444, some "Meaning", none, none⟩) =
      some ⟨444, some "Meaning", none, none⟩ ∧
    objLookup (CreateStudyMaterial.encodeInner ⟨444, some "Meaning", none, none⟩)
        "meaning_note" = some (Json.str "Meaning") ∧
    objLookup (CreateStudyMaterial.encodeInner ⟨444, some "Meaning", none, none⟩)
        "reading_note" = none :=
  ⟨(C9_create_study_material_envelope ⟨444, some "Meaning", none, none⟩).1,
   (C9_create_study_material_envelope ⟨444, some "Meaning", none, none⟩).2.1,
   (C9_create_study_material_envelope ⟨444, some "Meaning", none, none⟩).2.2.2.1,
   (C9_create_study_material_envelope ⟨444, some "Meaning", none, none⟩).2.2.2.2.1⟩

end Wanikani
